import Mathlib

/-!
Shallow embedding of the DALI e-commerce backend order/voucher/shipping core
(src/app/services/order_service.py, cart_service.py, shipping_service.py,
src/app/routers/cart.py apply_voucher, src/app/routers/orders.py
mark_order_collected) over explicit database/session state.

Monetary amounts (Python floats over DECIMAL columns) are modelled as
rationals, integers (Python int) as Int, timestamps as Int, SQL NULL as
Option.  Each service operation is a function from the database (and where
relevant the HTTP session) to Except String of the updated state: a raised
ValueError/HTTPException aborts the enclosing transaction, so nothing
persists on the error branch.
-/

namespace Dali

/-- Payment status enum from app/models/__init__.py. -/
inductive PaymentStatus
| PENDING
| PAID
| CANCELLED
| REFUNDED
deriving DecidableEq, Repr

/-- Shipping status enum from app/models/__init__.py.  Note that the source
router orders.py also references a member READY_FOR_PICKUP which is absent
from this enum. -/
inductive ShippingStatus
| PROCESSING
| PREPARING_FOR_SHIPMENT
| IN_TRANSIT
| DELIVERED
| COLLECTED
| CANCELLED
| DELIVERY_FAILED
deriving DecidableEq, Repr

/-- String value of a shipping status (the .value of the Python str enum). -/
def ShippingStatus.value : ShippingStatus → String
| .PROCESSING => "PROCESSING"
| .PREPARING_FOR_SHIPMENT => "PREPARING_FOR_SHIPMENT"
| .IN_TRANSIT => "IN_TRANSIT"
| .DELIVERED => "DELIVERED"
| .COLLECTED => "COLLECTED"
| .CANCELLED => "CANCELLED"
| .DELIVERY_FAILED => "DELIVERY_FAILED"

/-- Product row: products table plus the is_on_sale / product_discount_price
columns added by apply_db_updates_.py. -/
structure Product where
  product_id : Nat
  product_name : String
  product_price : ℚ
  product_discount_price : Option ℚ
  is_on_sale : Bool
  product_quantity : Int
deriving DecidableEq, Repr

/-- Account row (only the fields the order core reads). -/
structure Account where
  account_id : Nat
  account_email : String
deriving DecidableEq, Repr

/-- Address row (only the fields the order core reads).  Coordinates are
nullable DECIMAL columns. -/
structure Address where
  address_id : Nat
  account_id : Nat
  latitude : Option ℚ
  longitude : Option ℚ
deriving DecidableEq, Repr

/-- Store row. -/
structure Store where
  store_id : Nat
  store_name : String
deriving DecidableEq, Repr

/-- Persisted cart line of an authenticated account. -/
structure CartItemRow where
  account_id : Nat
  product_id : Nat
  quantity : Int
deriving DecidableEq, Repr

/-- Voucher row per the vouchers table created in apply_db_updates_.py. -/
structure Voucher where
  voucher_code : String
  description : String
  discount_type : String
  discount_value : ℚ
  min_purchase_amount : Option ℚ
  max_discount_amount : Option ℚ
  valid_from : Int
  valid_until : Int
  usage_limit : Option Int
  usage_count : Int
  is_active : Bool
deriving DecidableEq, Repr

/-- Voucher usage row per the voucher_usage table. -/
structure VoucherUsageRow where
  voucher_code : String
  account_id : Nat
  order_id : Nat
  discount_amount : ℚ
deriving DecidableEq, Repr

/-- Order row.  address_id, delivery_method and payment_method are taken
verbatim from checkout_details .get calls, hence Option. -/
structure OrderRow where
  order_id : Nat
  account_id : Nat
  address_id : Option Nat
  payment_status : PaymentStatus
  shipping_status : ShippingStatus
  delivery_method : Option String
  payment_method : Option String
  total_price : ℚ
  voucher_code : Option String
  voucher_discount : ℚ
deriving DecidableEq, Repr

/-- Order line row.  unit_price is the nullable column added by
apply_db_updates_.py; create_pending_order inserts lines without it. -/
structure OrderItemRow where
  order_id : Nat
  product_id : Nat
  quantity : Int
  unit_price : Option ℚ
deriving DecidableEq, Repr

/-- Order history row. -/
structure OrderHistoryRow where
  order_id : Nat
  status : String
  notes : String
deriving DecidableEq, Repr

/-- Order pickup row. -/
structure OrderPickupRow where
  order_id : Nat
  store_id : Nat
deriving DecidableEq, Repr

/-- Transient per-session voucher slot stored by apply_voucher. -/
structure AppliedVoucher where
  voucher_code : String
  discount_amount : ℚ
deriving DecidableEq, Repr

/-- HTTP session state read by the order core: the applied voucher slot and
the anonymous cart (product_id to quantity). -/
structure SessionData where
  applied_voucher : Option AppliedVoucher
  cart : List (Nat × Int)
deriving DecidableEq, Repr

/-- checkout_details dict from the checkout session; every field is read
with .get and may be absent. -/
structure CheckoutDetails where
  addressId : Option Nat
  shippingFee : Option ℚ
  paymentMethod : Option String
  deliveryMethod : Option String
  storeId : Option Nat
deriving DecidableEq, Repr

/-- Database state touched by the order core. -/
structure DB where
  accounts : List Account
  addresses : List Address
  products : List Product
  stores : List Store
  cart_items : List CartItemRow
  orders : List OrderRow
  order_items : List OrderItemRow
  order_history : List OrderHistoryRow
  order_pickups : List OrderPickupRow
  vouchers : List Voucher
  voucher_usage : List VoucherUsageRow
  next_order_id : Nat
deriving DecidableEq, Repr

/-- Python truthiness of a nullable numeric: None and 0 are falsy. -/
def truthyQ : Option ℚ → Bool
| none => false
| some x => x != 0

/-- Python truthiness of a nullable integer. -/
def truthyI : Option Int → Bool
| none => false
| some x => x != 0

/-- Python truthiness of a nullable natural key (store_id and the like). -/
def truthyN : Option Nat → Bool
| none => false
| some x => x != 0

/-- Python truthiness of a nullable string: None and the empty string are
falsy. -/
def truthyS : Option String → Bool
| none => false
| some s => s != ""

/-- Python str.upper modelled as a character-wise map (identical to
String.toUpper, stated over the character list so that it evaluates by
structural recursion). -/
def pyUpper (s : String) : String :=
  String.mk (s.data.map Char.toUpper)

/-- Python str.strip modelled over the character list: whitespace removed
from both ends. -/
def pyStrip (s : String) : String :=
  String.mk (((s.data.dropWhile (fun c => c.isWhitespace)).reverse.dropWhile (fun c => c.isWhitespace)).reverse)

/-- Substring containment, modelling the Python in operator on str. -/
def strContainsSub (s sub : String) : Bool :=
  (List.range (s.data.length + 1)).any (fun i => sub.data.isPrefixOf (s.data.drop i))

/-- db.query(Account).filter(Account.account_email == email).first() -/
def findAccountByEmail (db : DB) (email : String) : Option Account :=
  db.accounts.find? (fun a => a.account_email == email)

/-- db.query(Account).filter(Account.account_id == id).first() -/
def findAccountById (db : DB) (aid : Nat) : Option Account :=
  db.accounts.find? (fun a => a.account_id == aid)

/-- db.query(Product).filter(Product.product_id == pid).first() -/
def findProduct (products : List Product) (pid : Nat) : Option Product :=
  products.find? (fun p => p.product_id == pid)

/-- Address lookup filtered on both address_id and owning account. -/
def findAddressOwned (db : DB) (aid : Option Nat) (accId : Nat) : Option Address :=
  match aid with
  | none => none
  | some i => db.addresses.find? (fun a => a.address_id == i && a.account_id == accId)

/-- db.query(Voucher).filter(Voucher.voucher_code == code).first() -/
def findVoucher (db : DB) (code : String) : Option Voucher :=
  db.vouchers.find? (fun v => v.voucher_code == code)

/-- db.query(VoucherUsage).filter(code == c, account_id == a).first() -/
def findUsage (db : DB) (code : String) (accId : Nat) : Option VoucherUsageRow :=
  db.voucher_usage.find? (fun u => u.voucher_code == code && u.account_id == accId)

/-- db.query(Order).filter(Order.order_id == oid).first() -/
def findOrder (db : DB) (oid : Nat) : Option OrderRow :=
  db.orders.find? (fun o => o.order_id == oid)

/-- Effective price of a product: discount price when the sale flag is on
and a discount price exists, else list price (order_service.py lines 51-55,
149-152; cart_service.py get_cart_total). -/
def effective_price (p : Product) : ℚ :=
  if p.is_on_sale && p.product_discount_price.isSome then p.product_discount_price.getD 0
  else p.product_price

/-- CartService.get_cart_items: database cart for an authenticated user,
session cart otherwise; lines whose product is missing are dropped. -/
def get_cart_items (db : DB) (sess : SessionData) (user : Option Account) : List (Product × Int) :=
  match user with
  | some u =>
    (db.cart_items.filter (fun ci => ci.account_id == u.account_id)).filterMap
      (fun ci => (findProduct db.products ci.product_id).map (fun p => (p, ci.quantity)))
  | none =>
    sess.cart.filterMap
      (fun pq => (findProduct db.products pq.1).map (fun p => (p, pq.2)))

/-- CartService.get_cart_total: subtotal honouring the active sale price. -/
def get_cart_total (items : List (Product × Int)) : ℚ :=
  items.foldl (fun t pq => t + effective_price pq.1 * (pq.2 : ℚ)) 0

/-- Discount computation shared verbatim by apply_voucher (cart.py lines
286-295) and create_order (order_service.py lines 96-101): percentage of
subtotal clamped by a truthy max_discount_amount, or fixed amount clamped
at the subtotal. -/
def calcDiscount (discount_type : String) (discount_value : ℚ)
    (max_discount_amount : Option ℚ) (subtotal : ℚ) : ℚ :=
  if discount_type == "percentage" then
    let d := subtotal * (discount_value / 100)
    if truthyQ max_discount_amount then min d (max_discount_amount.getD 0) else d
  else
    min discount_value subtotal

/-- Rounding to two decimal places (Python round(fee, 2), up to the
half-even tie mode which no claim depends on). -/
def round2 (q : ℚ) : ℚ :=
  (round (q * 100) : ℤ) / 100

/-- Base shipping rate from ShippingService. -/
def BASE_RATE : ℚ := 50

/-- Per kilometer rate from ShippingService. -/
def PER_KM_RATE : ℚ := 20

/-- Priority delivery surcharge from ShippingService. -/
def PRIORITY_FEE_ADDITION : ℚ := 100

/-- ShippingService.calculate_shipping_fee.  The geodesic distance of the
geopy library and the configured warehouse origin are parameters: geo takes
the warehouse and customer coordinates to a distance in kilometers.  An
address whose latitude or longitude is NULL or 0 (Python falsy) short
circuits to the base rate before the priority surcharge is considered. -/
def calculate_shipping_fee (geo : ℚ × ℚ → ℚ × ℚ → ℚ) (warehouse : ℚ × ℚ)
    (address : Address) (delivery_method : String) : ℚ :=
  if !(truthyQ address.latitude) || !(truthyQ address.longitude) then
    BASE_RATE
  else
    let customer : ℚ × ℚ := (address.latitude.getD 0, address.longitude.getD 0)
    let distance_km := geo warehouse customer
    let fee := BASE_RATE + distance_km * PER_KM_RATE
    let fee2 := if delivery_method == "Priority Delivery" then fee + PRIORITY_FEE_ADDITION else fee
    round2 fee2

/-- Stock decrement: product.product_quantity -= qty on the row with the
given id (the SQLAlchemy identity map makes every reader of that row see
the new value). -/
def decStock (products : List Product) (pid : Nat) (qty : Int) : List Product :=
  products.map (fun p => if p.product_id == pid then { p with product_quantity := p.product_quantity - qty } else p)

/-- Stock restoration: product.product_quantity += qty. -/
def incStock (products : List Product) (pid : Nat) (qty : Int) : List Product :=
  products.map (fun p => if p.product_id == pid then { p with product_quantity := p.product_quantity + qty } else p)

/-- Stock of a product id, none when no such product row exists. -/
def stockOf (products : List Product) (pid : Nat) : Option Int :=
  (findProduct products pid).map (fun p => p.product_quantity)

/-- Voucher re-validation block of create_order (order_service.py lines
66-111): look the live voucher up, check active flag, validity window,
prior usage and usage limit, then recompute the discount from the live
voucher and the current subtotal; any failure clears the voucher and the
discount.  The session-cached discount amount is never used. -/
def validateVoucherAtOrder (db : DB) (accId : Nat) (subtotal : ℚ) (now : Int)
    (av : AppliedVoucher) : Option String × ℚ :=
  let code := av.voucher_code
  match findVoucher db code with
  | some v =>
    if v.is_active then
      if v.valid_from ≤ now ∧ now ≤ v.valid_until then
        match findUsage db code accId with
        | some _ => (none, 0)
        | none =>
          if truthyI v.usage_limit ∧ v.usage_count ≥ v.usage_limit.getD 0 then (none, 0)
          else (some code, calcDiscount v.discount_type v.discount_value v.max_discount_amount subtotal)
      else (none, 0)
    else (none, 0)
  | none => (none, 0)

/-- Order line creation and stock decrement loop of create_order (lines
140-164): per cart line check stock against the live row, snapshot the
effective unit price onto the new line and decrement the product quantity.
The lookup mirrors the identity map; its none branch is unreachable for
carts produced by get_cart_items. -/
def applyItems (oid : Nat) (items : List (Product × Int)) (products : List Product) :
    Except String (List Product × List OrderItemRow) :=
  match items with
  | [] => Except.ok (products, [])
  | (psnap, qty) :: rest =>
    match findProduct products psnap.product_id with
    | none => Except.error "Product row vanished"
    | some product =>
      if product.product_quantity < qty then
        Except.error ("Insufficient stock for " ++ product.product_name)
      else
        match applyItems oid rest (decStock products product.product_id qty) with
        | Except.error e => Except.error e
        | Except.ok (ps, rows) =>
          Except.ok (ps, ⟨oid, product.product_id, qty, some (effective_price product)⟩ :: rows)

/-- OrderService.create_order (order_service.py lines 18-211), the COD
checkout path: validate user, cart and address, recompute subtotal and
voucher, create the order, its lines (with unit_price snapshots), optional
pickup record, history event and voucher usage, decrement stock, clear the
cart and the session voucher slot. -/
def create_order (db : DB) (sess : SessionData) (user_email : String)
    (cd : CheckoutDetails) (now : Int) :
    Except String (DB × SessionData × OrderRow) :=
  match findAccountByEmail db user_email with
  | none => Except.error "User not found"
  | some user =>
    let cart_items := get_cart_items db sess (some user)
    if cart_items.isEmpty then Except.error "Cart is empty"
    else
      match findAddressOwned db cd.addressId user.account_id with
      | none => Except.error "Invalid address"
      | some _address =>
        let subtotal := get_cart_total cart_items
        let shipping_fee := cd.shippingFee.getD 0
        let vd : Option String × ℚ :=
          match sess.applied_voucher with
          | none => (none, 0)
          | some av => validateVoucherAtOrder db user.account_id subtotal now av
        let total := subtotal + shipping_fee - vd.2
        let initial_payment_status :=
          match cd.paymentMethod with
          | some pm => if strContainsSub (pyUpper pm) "COD" then PaymentStatus.PENDING else PaymentStatus.PAID
          | none => PaymentStatus.PAID
        let order : OrderRow :=
          { order_id := db.next_order_id
            account_id := user.account_id
            address_id := cd.addressId
            payment_status := initial_payment_status
            shipping_status := ShippingStatus.PROCESSING
            delivery_method := cd.deliveryMethod
            payment_method := cd.paymentMethod
            total_price := total
            voucher_code := vd.1
            voucher_discount := vd.2 }
        match applyItems order.order_id cart_items db.products with
        | Except.error e => Except.error e
        | Except.ok (products2, rows) =>
          let pickups :=
            if cd.deliveryMethod == some "Pickup Delivery" && truthyN cd.storeId then
              db.order_pickups ++ [⟨order.order_id, cd.storeId.getD 0⟩]
            else db.order_pickups
          let hist := db.order_history ++ [⟨order.order_id, "PROCESSING", "Order placed successfully"⟩]
          let vu : List Voucher × List VoucherUsageRow :=
            match vd.1 with
            | some c =>
              if c != "" && decide (vd.2 > 0) then
                match findVoucher db c with
                | some _ =>
                  (db.vouchers.map (fun v => if v.voucher_code == c then { v with usage_count := v.usage_count + 1 } else v),
                   db.voucher_usage ++ [⟨c, user.account_id, order.order_id, vd.2⟩])
                | none => (db.vouchers, db.voucher_usage)
              else (db.vouchers, db.voucher_usage)
            | none => (db.vouchers, db.voucher_usage)
          let db2 : DB :=
            { db with
              products := products2
              orders := db.orders ++ [order]
              order_items := db.order_items ++ rows
              order_history := hist
              order_pickups := pickups
              vouchers := vu.1
              voucher_usage := vu.2
              cart_items := db.cart_items.filter (fun ci => !(ci.account_id == user.account_id))
              next_order_id := db.next_order_id + 1 }
          Except.ok (db2, { sess with applied_voucher := none }, order)

/-- OrderService.create_pending_order (lines 213-284), the payment gateway
path: no address ownership check, the session voucher slot is taken at
face value (code and cached discount, no re-validation), order lines are
created without unit_price, stock is not decremented, no history event,
and neither the cart nor the voucher slot is cleared. -/
def create_pending_order (db : DB) (sess : SessionData) (user_email : String)
    (cd : CheckoutDetails) : Except String (DB × OrderRow) :=
  match findAccountByEmail db user_email with
  | none => Except.error "User not found"
  | some user =>
    let cart_items := get_cart_items db sess (some user)
    if cart_items.isEmpty then Except.error "Cart is empty"
    else
      let subtotal := get_cart_total cart_items
      let shipping_fee := cd.shippingFee.getD 0
      let vd : Option String × ℚ :=
        match sess.applied_voucher with
        | none => (none, 0)
        | some av => (some av.voucher_code, av.discount_amount)
      let order : OrderRow :=
        { order_id := db.next_order_id
          account_id := user.account_id
          address_id := cd.addressId
          payment_status := PaymentStatus.PENDING
          shipping_status := ShippingStatus.PROCESSING
          delivery_method := cd.deliveryMethod
          payment_method := cd.paymentMethod
          total_price := subtotal + shipping_fee - vd.2
          voucher_code := vd.1
          voucher_discount := vd.2 }
      let rows := cart_items.map (fun pq => (⟨order.order_id, pq.1.product_id, pq.2, none⟩ : OrderItemRow))
      let pickups :=
        if cd.deliveryMethod == some "Pickup Delivery" && truthyN cd.storeId then
          db.order_pickups ++ [⟨order.order_id, cd.storeId.getD 0⟩]
        else db.order_pickups
      Except.ok ({ db with
                   orders := db.orders ++ [order]
                   order_items := db.order_items ++ rows
                   order_pickups := pickups
                   next_order_id := db.next_order_id + 1 }, order)

/-- Stock decrement loop of confirm_payment (lines 296-301); a missing
product row would crash the Python attribute access and abort the
transaction, modelled as an error. -/
def confirmItems (items : List OrderItemRow) (products : List Product) : Except String (List Product) :=
  match items with
  | [] => Except.ok products
  | it :: rest =>
    match findProduct products it.product_id with
    | none => Except.error "AttributeError: NoneType"
    | some product =>
      if product.product_quantity < it.quantity then
        Except.error ("Insufficient stock for " ++ product.product_name)
      else confirmItems rest (decStock products it.product_id it.quantity)

/-- OrderService.confirm_payment (lines 286-319): gateway success callback,
decrements stock for the pending order, marks it PAID and clears the cart. -/
def confirm_payment (db : DB) (sess : SessionData) (oid : Nat) :
    Except String (DB × SessionData) :=
  match findOrder db oid with
  | none => Except.error "Order not found"
  | some order =>
    if order.payment_status ≠ PaymentStatus.PENDING then Except.error "Order is not pending payment"
    else
      match confirmItems (db.order_items.filter (fun it => it.order_id == oid)) db.products with
      | Except.error e => Except.error e
      | Except.ok products2 =>
        let orders2 := db.orders.map (fun o => if o.order_id == oid then { o with payment_status := PaymentStatus.PAID } else o)
        let hist := db.order_history ++ [⟨oid, "PAID", "Payment confirmed successfully"⟩]
        match findAccountById db order.account_id with
        | some acct =>
          Except.ok ({ db with
                       products := products2
                       orders := orders2
                       order_history := hist
                       cart_items := db.cart_items.filter (fun ci => !(ci.account_id == acct.account_id)) }, sess)
        | none =>
          Except.ok ({ db with products := products2, orders := orders2, order_history := hist },
                     { sess with cart := [] })

/-- OrderService.fail_payment (lines 321-339): gateway failure callback;
no stock is touched since the pending order never decremented any. -/
def fail_payment (db : DB) (oid : Nat) : DB :=
  match findOrder db oid with
  | none => db
  | some _ =>
    { db with
      orders := db.orders.map (fun o => if o.order_id == oid then { o with payment_status := PaymentStatus.CANCELLED, shipping_status := ShippingStatus.CANCELLED } else o)
      order_history := db.order_history ++ [⟨oid, "CANCELLED", "Payment failed or cancelled"⟩] }

/-- Stock restoration loop of cancel_order (lines 356-359); a missing
product row would crash the attribute access, modelled as an error. -/
def restoreItems (items : List OrderItemRow) (products : List Product) : Except String (List Product) :=
  match items with
  | [] => Except.ok products
  | it :: rest =>
    match findProduct products it.product_id with
    | none => Except.error "AttributeError: NoneType"
    | some _ => restoreItems rest (incStock products it.product_id it.quantity)

/-- OrderService.cancel_order (lines 341-377): customer cancellation,
rejected only for DELIVERED and IN_TRANSIT orders; restores stock for
every order line unconditionally, then flips payment PAID to REFUNDED and
anything else to CANCELLED. -/
def cancel_order (db : DB) (oid : Nat) (user_email : String) : Except String DB :=
  match findOrder db oid with
  | none => Except.error "Order not found"
  | some order =>
    match findAccountById db order.account_id with
    | none => Except.error "AttributeError: NoneType"
    | some acct =>
      if acct.account_email ≠ user_email then Except.error "Unauthorized"
      else if order.shipping_status = ShippingStatus.DELIVERED ∨ order.shipping_status = ShippingStatus.IN_TRANSIT then
        Except.error "Cannot cancel order that is already in transit or delivered"
      else
        match restoreItems (db.order_items.filter (fun it => it.order_id == oid)) db.products with
        | Except.error e => Except.error e
        | Except.ok products2 =>
          let newPay := if order.payment_status = PaymentStatus.PAID then PaymentStatus.REFUNDED else PaymentStatus.CANCELLED
          let cancelNotes := "Order cancelled by customer" ++ (if newPay = PaymentStatus.REFUNDED then " - Payment refunded" else "")
          Except.ok { db with
            products := products2
            orders := db.orders.map (fun o => if o.order_id == oid then { o with shipping_status := ShippingStatus.CANCELLED, payment_status := newPay } else o)
            order_history := db.order_history ++ [⟨oid, "CANCELLED", cancelNotes⟩] }

/-- Guarded stock restoration loop of update_shipping_status (lines
402-406): missing product rows are silently skipped. -/
def restoreItemsSkip (items : List OrderItemRow) (products : List Product) : List Product :=
  match items with
  | [] => products
  | it :: rest =>
    match findProduct products it.product_id with
    | none => restoreItemsSkip rest products
    | some _ => restoreItemsSkip rest (incStock products it.product_id it.quantity)

/-- OrderService.update_shipping_status (lines 379-431): admin transition,
applied unconditionally to whatever state the order is in.  A CANCELLED
target additionally flips payment status and restores stock; a COLLECTED
target flips a PENDING payment to PAID and appends an extra payment
history event before the status event. -/
def update_shipping_status (db : DB) (oid : Nat) (status : ShippingStatus)
    (notes : Option String) : Except String DB :=
  match findOrder db oid with
  | none => Except.error "Order not found"
  | some order =>
    let pay1 :=
      if status = ShippingStatus.CANCELLED then
        if order.payment_status = PaymentStatus.PAID then PaymentStatus.REFUNDED else PaymentStatus.CANCELLED
      else order.payment_status
    let products2 :=
      if status = ShippingStatus.CANCELLED then
        restoreItemsSkip (db.order_items.filter (fun it => it.order_id == oid)) db.products
      else db.products
    let pay2 := if status = ShippingStatus.COLLECTED ∧ pay1 = PaymentStatus.PENDING then PaymentStatus.PAID else pay1
    let hist1 :=
      if status = ShippingStatus.COLLECTED ∧ pay1 = PaymentStatus.PENDING then
        db.order_history ++ [⟨oid, "PAID", "Payment received on collection"⟩]
      else db.order_history
    let history_notes := if truthyS notes then notes.getD "" else "Status updated to " ++ status.value
    Except.ok { db with
      products := products2
      orders := db.orders.map (fun o => if o.order_id == oid then { o with shipping_status := status, payment_status := pay2 } else o)
      order_history := hist1 ++ [⟨oid, status.value, history_notes⟩] }

/-- Response payload of the apply_voucher endpoint. -/
structure VoucherResponse where
  voucher_code : String
  discount_amount : ℚ
  new_total : ℚ
deriving DecidableEq, Repr

/-- apply_voucher endpoint (cart.py lines 226-312): full validation at cart
time in source order, then the discount is computed and stored in the
session voucher slot.  The prior-usage check only runs for authenticated
users. -/
def apply_voucher (db : DB) (sess : SessionData) (raw_code : String)
    (current_user : Option Account) (now : Int) :
    Except String (SessionData × VoucherResponse) :=
  let code := pyUpper (pyStrip raw_code)
  match findVoucher db code with
  | none => Except.error "Voucher code not found"
  | some v =>
    if !v.is_active then Except.error "This voucher is no longer active"
    else if now < v.valid_from then Except.error "This voucher is not yet valid"
    else if now > v.valid_until then Except.error "This voucher has expired"
    else if truthyI v.usage_limit ∧ v.usage_count ≥ v.usage_limit.getD 0 then
      Except.error "This voucher has reached its usage limit"
    else if (match current_user with
             | some u => (findUsage db code u.account_id).isSome
             | none => false) then
      Except.error "You have already used this voucher"
    else
      let subtotal := get_cart_total (get_cart_items db sess current_user)
      if subtotal = 0 then Except.error "Cannot apply voucher to an empty cart"
      else if truthyQ v.min_purchase_amount ∧ subtotal < v.min_purchase_amount.getD 0 then
        Except.error "Minimum purchase required for this voucher"
      else
        let discount_amount := calcDiscount v.discount_type v.discount_value v.max_discount_amount subtotal
        Except.ok ({ sess with applied_voucher := some ⟨code, discount_amount⟩ },
                   ⟨code, discount_amount, subtotal - discount_amount⟩)

/-- mark_order_collected endpoint (orders.py lines 65-105).  After the
ownership and pickup checks the source compares the order state against
ShippingStatus.READY_FOR_PICKUP, a member the ShippingStatus enum does not
declare, so the handler raises AttributeError before any mutation. -/
def mark_order_collected (db : DB) (oid : Nat) (current_user : Account) : Except String DB :=
  match findOrder db oid with
  | none => Except.error "Order not found"
  | some order =>
    if order.account_id ≠ current_user.account_id then Except.error "Access denied"
    else if order.delivery_method ≠ some "Pickup Delivery" then Except.error "This is not a pickup order"
    else Except.error "AttributeError: READY_FOR_PICKUP"

/-- At most one voucher_usage row per (voucher_code, account) pair, the
uniqueness constraint unique_user_voucher of the voucher_usage table. -/
def usageUnique (db : DB) : Prop :=
  List.Pairwise (fun a b => ¬(a.voucher_code = b.voucher_code ∧ a.account_id = b.account_id)) db.voucher_usage

/-- Total quantity of a given product over a cart line list. -/
def qtySum (items : List (Product × Int)) (pid : Nat) : Int :=
  (items.map (fun pq => if pq.1.product_id == pid then pq.2 else 0)).sum

/-- Total quantity of a given product over order line rows. -/
def rowsQty (rows : List OrderItemRow) (pid : Nat) : Int :=
  (rows.map (fun r => if r.product_id == pid then r.quantity else 0)).sum

/-- Sum of unit_price times quantity over order line rows (NULL priced
lines contribute 0). -/
def linesTotal (rows : List OrderItemRow) : ℚ :=
  (rows.map (fun r => r.unit_price.getD 0 * (r.quantity : ℚ))).sum

def dummyOrder : OrderRow :=
  ⟨0, 0, none, PaymentStatus.PENDING, ShippingStatus.PROCESSING, none, none, 0, none, 0⟩

def okDB (r : Except String DB) (d : DB) : DB :=
  match r with
  | Except.ok t => t
  | Except.error _ => d

def okDB3 (r : Except String (DB × SessionData × OrderRow)) (d : DB) : DB :=
  match r with
  | Except.ok t => t.1
  | Except.error _ => d

def okSess3 (r : Except String (DB × SessionData × OrderRow)) (s : SessionData) : SessionData :=
  match r with
  | Except.ok t => t.2.1
  | Except.error _ => s

def okOrder3 (r : Except String (DB × SessionData × OrderRow)) : OrderRow :=
  match r with
  | Except.ok t => t.2.2
  | Except.error _ => dummyOrder

def okDB2 (r : Except String (DB × OrderRow)) (d : DB) : DB :=
  match r with
  | Except.ok t => t.1
  | Except.error _ => d

def okOrder2 (r : Except String (DB × OrderRow)) : OrderRow :=
  match r with
  | Except.ok t => t.2
  | Except.error _ => dummyOrder

def acct1 : Account := ⟨1, "u@x.com"⟩

def addr1 : Address := ⟨1, 1, some 1, some 1⟩

def addrNC : Address := ⟨2, 1, none, none⟩

def prod1 : Product := ⟨1, "Widget", 10, none, false, 5⟩

def bigProd : Product := ⟨2, "Big", 1000, none, false, 9⟩

def db0 : DB :=
  { accounts := [acct1], addresses := [addr1], products := [prod1], stores := [⟨1, "S"⟩],
    cart_items := [⟨1, 1, 2⟩], orders := [], order_items := [], order_history := [],
    order_pickups := [], vouchers := [], voucher_usage := [], next_order_id := 10 }

def sess0 : SessionData := ⟨none, []⟩

def cd0 : CheckoutDetails :=
  ⟨some 1, some 7, some "Cash on delivery (COD)", some "Standard Delivery", none⟩

def cdPick : CheckoutDetails :=
  ⟨some 1, some 0, some "Cash on delivery (COD)", some "Pickup Delivery", some 1⟩

def cdPickNoStore : CheckoutDetails :=
  ⟨some 1, some 0, some "Cash on delivery (COD)", some "Pickup Delivery", none⟩

def v10 : Voucher := ⟨"SAVE10", "ten percent off", "percentage", 10, none, some 80, 0, 100, none, 0, true⟩

def vInactive : Voucher := ⟨"DEAD", "inactive", "percentage", 10, none, none, 0, 100, none, 0, false⟩

def sessBad : SessionData := ⟨some ⟨"DEAD", 999⟩, []⟩

def dbI : DB := { db0 with vouchers := [vInactive] }

def dbV : DB := { db0 with products := [prod1, bigProd], cart_items := [⟨1, 2, 1⟩], vouchers := [v10] }

def dbU : DB := { db0 with vouchers := [v10], voucher_usage := [⟨"SAVE10", 1, 5, 80⟩] }

def codRes0 : Except String (DB × SessionData × OrderRow) := create_order db0 sess0 "u@x.com" cd0 0

def codDB0 : DB := okDB3 codRes0 db0

def codSess0 : SessionData := okSess3 codRes0 sess0

def codOrder0 : OrderRow := okOrder3 codRes0

def codCancDB0 : DB := okDB (cancel_order codDB0 10 "u@x.com") db0

def pendRes0 : Except String (DB × OrderRow) := create_pending_order db0 sess0 "u@x.com" cd0

def pendDB0 : DB := okDB2 pendRes0 db0

def pickRes0 : Except String (DB × SessionData × OrderRow) := create_order db0 sess0 "u@x.com" cdPick 0

def pickDB0 : DB := okDB3 pickRes0 db0

def collectedDB0 : DB := okDB (update_shipping_status pickDB0 10 ShippingStatus.COLLECTED none) db0

def deliveredDB0 : DB := okDB (update_shipping_status codDB0 10 ShippingStatus.DELIVERED none) db0

def delOrd0 : OrderRow :=
  match findOrder deliveredDB0 10 with
  | some o => o
  | none => dummyOrder

def cancDB1 : DB := okDB (update_shipping_status codDB0 10 ShippingStatus.CANCELLED none) db0

def cancOrd1 : OrderRow :=
  match findOrder cancDB1 10 with
  | some o => o
  | none => dummyOrder

def cancDB2 : DB := okDB (update_shipping_status cancDB1 10 ShippingStatus.CANCELLED none) db0

def collOrd0 : OrderRow :=
  match findOrder pickDB0 10 with
  | some o => o
  | none => dummyOrder

def c6CancDB : DB := okDB (cancel_order collectedDB0 10 "u@x.com") db0

def cdBadAddr : CheckoutDetails := { cd0 with addressId := some 99 }

def pendOrder0 : OrderRow := okOrder2 pendRes0

def c3Res : Except String (DB × SessionData × OrderRow) := create_order dbI sessBad "u@x.com" cd0 0

def c3DB : DB := okDB3 c3Res dbI

def c3Sess : SessionData := okSess3 c3Res sessBad

def c3Order : OrderRow := okOrder3 c3Res

theorem validate_some (db : DB) (accId : Nat) (subtotal : ℚ) (now : Int) (av : AppliedVoucher)
    (c : String) (d : ℚ)
    (h : validateVoucherAtOrder db accId subtotal now av = (some c, d)) :
    c = av.voucher_code ∧ findUsage db av.voucher_code accId = none ∧
    ∃ v, findVoucher db av.voucher_code = some v ∧ v.is_active = true ∧
      v.valid_from ≤ now ∧ now ≤ v.valid_until ∧
      ¬(truthyI v.usage_limit = true ∧ v.usage_count ≥ v.usage_limit.getD 0) ∧
      d = calcDiscount v.discount_type v.discount_value v.max_discount_amount subtotal := by
  unfold validateVoucherAtOrder at h
  dsimp only at h
  cases hf : findVoucher db av.voucher_code with
  | none => rw [hf] at h; exact absurd h (by simp)
  | some v =>
    rw [hf] at h
    dsimp only at h
    by_cases hact : v.is_active
    · rw [if_pos hact] at h
      by_cases hwin : v.valid_from ≤ now ∧ now ≤ v.valid_until
      · rw [if_pos hwin] at h
        cases hu : findUsage db av.voucher_code accId with
        | some u => rw [hu] at h; exact absurd h (by simp)
        | none =>
          rw [hu] at h
          dsimp only at h
          by_cases hlim : truthyI v.usage_limit = true ∧ v.usage_count ≥ v.usage_limit.getD 0
          · rw [if_pos hlim] at h; exact absurd h (by simp)
          · rw [if_neg hlim] at h
            injection h with h1 h2
            exact ⟨(Option.some.inj h1).symm, rfl, v, rfl, hact, hwin.1, hwin.2, hlim, h2.symm⟩
      · rw [if_neg hwin] at h; exact absurd h (by simp)
    · rw [if_neg hact] at h; exact absurd h (by simp)

theorem validate_ignores_cached (db : DB) (accId : Nat) (subtotal : ℚ) (now : Int)
    (code : String) (q1 q2 : ℚ) :
    validateVoucherAtOrder db accId subtotal now ⟨code, q1⟩ =
      validateVoucherAtOrder db accId subtotal now ⟨code, q2⟩ := rfl

theorem create_order_shape (db : DB) (sess : SessionData) (email : String)
    (cd : CheckoutDetails) (now : Int) (db' : DB) (sess' : SessionData) (order : OrderRow)
    (h : create_order db sess email cd now = Except.ok (db', sess', order)) :
    ∃ user products2 rows,
      findAccountByEmail db email = some user ∧
      (get_cart_items db sess (some user)).isEmpty = false ∧
      applyItems db.next_order_id (get_cart_items db sess (some user)) db.products = Except.ok (products2, rows) ∧
      order.order_id = db.next_order_id ∧
      order.account_id = user.account_id ∧
      order.shipping_status = ShippingStatus.PROCESSING ∧
      order.total_price = get_cart_total (get_cart_items db sess (some user)) + cd.shippingFee.getD 0 - order.voucher_discount ∧
      ((sess.applied_voucher = none ∧ order.voucher_code = none ∧ order.voucher_discount = 0) ∨
       (∃ av, sess.applied_voucher = some av ∧
         (order.voucher_code, order.voucher_discount) =
           validateVoucherAtOrder db user.account_id (get_cart_total (get_cart_items db sess (some user))) now av)) ∧
      db'.products = products2 ∧
      db'.orders = db.orders ++ [order] ∧
      db'.order_items = db.order_items ++ rows ∧
      db'.order_history = db.order_history ++ [⟨order.order_id, "PROCESSING", "Order placed successfully"⟩] ∧
      db'.accounts = db.accounts ∧
      db'.next_order_id = db.next_order_id + 1 ∧
      (db'.voucher_usage = db.voucher_usage ∨
        ∃ c, order.voucher_code = some c ∧ order.voucher_discount > 0 ∧
          db'.voucher_usage = db.voucher_usage ++ [⟨c, user.account_id, order.order_id, order.voucher_discount⟩]) ∧
      (cd.storeId = none → db'.order_pickups = db.order_pickups) ∧
      sess' = { sess with applied_voucher := none } := by
  unfold create_order at h
  dsimp only at h
  cases hu : findAccountByEmail db email with
  | none => rw [hu] at h; exact absurd h (by simp)
  | some user =>
    rw [hu] at h
    dsimp only at h
    by_cases hempty : (get_cart_items db sess (some user)).isEmpty
    · rw [if_pos hempty] at h; exact absurd h (by simp)
    · rw [if_neg hempty] at h
      cases haddr : findAddressOwned db cd.addressId user.account_id with
      | none => rw [haddr] at h; exact absurd h (by simp)
      | some addr =>
        rw [haddr] at h
        dsimp only at h
        cases happ : applyItems db.next_order_id (get_cart_items db sess (some user)) db.products with
        | error e => rw [happ] at h; exact absurd h (by simp)
        | ok pr =>
          obtain ⟨products2, rows⟩ := pr
          rw [happ] at h
          dsimp only at h
          injection h with h2
          injection h2 with hdb h3
          injection h3 with hsess horder
          subst hdb
          subst hsess
          subst horder
          refine ⟨user, products2, rows, rfl, by simpa using hempty, happ, rfl, rfl, rfl, rfl, ?_, rfl, rfl, rfl, rfl, rfl, rfl, ?_, ?_, rfl⟩
          · cases hav : sess.applied_voucher with
            | none => exact Or.inl ⟨rfl, by dsimp only, by dsimp only⟩
            | some av =>
              refine Or.inr ⟨av, rfl, ?_⟩
              dsimp only
          · cases hav : sess.applied_voucher with
            | none => exact Or.inl (by dsimp only)
            | some av =>
              dsimp only
              cases hvd : validateVoucherAtOrder db user.account_id (get_cart_total (get_cart_items db sess (some user))) now av with
              | mk oc odisc =>
                dsimp only
                cases hoc : oc with
                | none => exact Or.inl rfl
                | some c =>
                  dsimp only
                  by_cases hflag : (c != "" && decide (odisc > 0)) = true
                  · rw [if_pos hflag]
                    cases hfv : findVoucher db c with
                    | none => exact Or.inl rfl
                    | some v =>
                      refine Or.inr ⟨c, rfl, ?_, rfl⟩
                      have h4 := (Bool.and_eq_true _ _).mp hflag
                      exact of_decide_eq_true h4.2
                  · rw [if_neg hflag]
                    exact Or.inl rfl
          · intro hsid
            show (if (cd.deliveryMethod == some "Pickup Delivery" && truthyN cd.storeId) = true then _ else _) = _
            rw [hsid]
            simp [truthyN]

theorem findProduct_map (ps : List Product) (g : Product → Product)
    (hg : ∀ p, (g p).product_id = p.product_id) (pid : Nat) :
    findProduct (ps.map g) pid = (findProduct ps pid).map g := by
  unfold findProduct
  have hpred : ((fun p : Product => p.product_id == pid) ∘ g) = (fun p : Product => p.product_id == pid) := by
    funext p
    simp [Function.comp, hg p]
  rw [List.find?_map, hpred]

theorem stockOf_decStock (ps : List Product) (pid pid' : Nat) (q : Int) :
    stockOf (decStock ps pid q) pid' =
      (stockOf ps pid').map (fun s => s - if pid' = pid then q else 0) := by
  have hg : ∀ p : Product,
      ((fun p : Product => if p.product_id == pid then { p with product_quantity := p.product_quantity - q } else p) p).product_id = p.product_id := by
    intro p
    by_cases h : p.product_id == pid <;> simp [h]
  unfold stockOf decStock
  rw [findProduct_map ps _ hg pid']
  cases hf : findProduct ps pid' with
  | none => rfl
  | some p =>
    have hp : p.product_id = pid' := by
      have h2 := List.find?_some (show List.find? (fun x => x.product_id == pid') ps = some p by simpa [findProduct] using hf)
      simpa using h2
    by_cases hpp : pid' = pid
    · simp [Option.map, hp, hpp]
    · simp [Option.map, hp, hpp]

theorem stockOf_incStock (ps : List Product) (pid pid' : Nat) (q : Int) :
    stockOf (incStock ps pid q) pid' =
      (stockOf ps pid').map (fun s => s + if pid' = pid then q else 0) := by
  have hg : ∀ p : Product,
      ((fun p : Product => if p.product_id == pid then { p with product_quantity := p.product_quantity + q } else p) p).product_id = p.product_id := by
    intro p
    by_cases h : p.product_id == pid <;> simp [h]
  unfold stockOf incStock
  rw [findProduct_map ps _ hg pid']
  cases hf : findProduct ps pid' with
  | none => rfl
  | some p =>
    have hp : p.product_id = pid' := by
      have h2 := List.find?_some (show List.find? (fun x => x.product_id == pid') ps = some p by simpa [findProduct] using hf)
      simpa using h2
    by_cases hpp : pid' = pid
    · simp [Option.map, hp, hpp]
    · simp [Option.map, hp, hpp]

theorem effective_price_update (p : Product) (pid : Nat) (f : Int → Int) :
    effective_price (if p.product_id == pid then { p with product_quantity := f p.product_quantity } else p) = effective_price p := by
  by_cases h : p.product_id == pid <;> simp [h, effective_price]

theorem qtySum_nil (pid : Nat) : qtySum [] pid = 0 := rfl

theorem qtySum_cons (hd : Product × Int) (t : List (Product × Int)) (pid : Nat) :
    qtySum (hd :: t) pid = (if hd.1.product_id == pid then hd.2 else 0) + qtySum t pid := by
  simp [qtySum]

theorem rowsQty_nil (pid : Nat) : rowsQty [] pid = 0 := rfl

theorem rowsQty_cons (hd : OrderItemRow) (t : List OrderItemRow) (pid : Nat) :
    rowsQty (hd :: t) pid = (if hd.product_id == pid then hd.quantity else 0) + rowsQty t pid := by
  simp [rowsQty]

theorem applyItems_stock (oid : Nat) (items : List (Product × Int)) (ps ps' : List Product)
    (rows : List OrderItemRow)
    (h : applyItems oid items ps = Except.ok (ps', rows)) (pid : Nat) :
    stockOf ps' pid = (stockOf ps pid).map (fun s => s - qtySum items pid) := by
  induction items generalizing ps ps' rows with
  | nil =>
    unfold applyItems at h
    injection h with h2
    injection h2 with ha hb
    subst ha
    cases hs : stockOf ps pid <;> simp [qtySum_nil, hs]
  | cons hd t ih =>
    unfold applyItems at h
    cases hf : findProduct ps hd.1.product_id with
    | none => rw [hf] at h; exact absurd h (by simp)
    | some product =>
      rw [hf] at h
      dsimp only at h
      by_cases hq : product.product_quantity < hd.2
      · rw [if_pos hq] at h; exact absurd h (by simp)
      · rw [if_neg hq] at h
        cases hrec : applyItems oid t (decStock ps product.product_id hd.2) with
        | error e => rw [hrec] at h; exact absurd h (by simp)
        | ok pr =>
          obtain ⟨ps2, rows2⟩ := pr
          rw [hrec] at h
          dsimp only at h
          injection h with h2
          injection h2 with ha hb
          subst ha
          have hpid : product.product_id = hd.1.product_id := by
            have h3 := List.find?_some (show List.find? (fun x => x.product_id == hd.1.product_id) ps = some product by simpa [findProduct] using hf)
            simpa using h3
          have hmain := ih (decStock ps product.product_id hd.2) ps2 rows2 hrec
          rw [hmain, stockOf_decStock]
          rw [Option.map_map]
          rw [qtySum_cons]
          cases hs : stockOf ps pid with
          | none => rfl
          | some s =>
            simp only [Option.map, Function.comp, Option.some.injEq]
            rw [hpid]
            by_cases hpp : pid = hd.1.product_id
            · have hbeq : (hd.1.product_id == pid) = true := by simp [hpp]
              simp [hbeq, hpp]
              omega
            · have hbeq : (hd.1.product_id == pid) = false := by
                simp only [beq_eq_false_iff_ne]
                exact fun hcc => hpp hcc.symm
              simp [hbeq, hpp]

theorem applyItems_rows (oid : Nat) (items : List (Product × Int)) (ps ps' : List Product)
    (rows : List OrderItemRow)
    (hpr : ∀ pq ∈ items, ∃ p', findProduct ps pq.1.product_id = some p' ∧
      effective_price p' = effective_price pq.1 ∧ p'.product_id = pq.1.product_id)
    (h : applyItems oid items ps = Except.ok (ps', rows)) :
    rows = items.map (fun pq => ⟨oid, pq.1.product_id, pq.2, some (effective_price pq.1)⟩) := by
  induction items generalizing ps ps' rows with
  | nil =>
    unfold applyItems at h
    injection h with h2
    injection h2 with ha hb
    simp [hb.symm]
  | cons hd t ih =>
    unfold applyItems at h
    cases hf : findProduct ps hd.1.product_id with
    | none => rw [hf] at h; exact absurd h (by simp)
    | some product =>
      rw [hf] at h
      dsimp only at h
      by_cases hq : product.product_quantity < hd.2
      · rw [if_pos hq] at h; exact absurd h (by simp)
      · rw [if_neg hq] at h
        cases hrec : applyItems oid t (decStock ps product.product_id hd.2) with
        | error e => rw [hrec] at h; exact absurd h (by simp)
        | ok pr =>
          obtain ⟨ps2, rows2⟩ := pr
          rw [hrec] at h
          dsimp only at h
          injection h with h2
          injection h2 with ha hb
          obtain ⟨p', hp1, hp2, hp3⟩ := hpr hd (by simp)
          have hpe : product = p' := by rw [hf] at hp1; exact Option.some.inj hp1
          subst hpe
          have hprt : ∀ pq ∈ t, ∃ p2, findProduct (decStock ps product.product_id hd.2) pq.1.product_id = some p2 ∧
              effective_price p2 = effective_price pq.1 ∧ p2.product_id = pq.1.product_id := by
            intro pq hmem
            obtain ⟨p3, hq1, hq2, hq3⟩ := hpr pq (by simp [hmem])
            have hg : ∀ pp : Product,
                ((fun pp : Product => if pp.product_id == product.product_id then { pp with product_quantity := pp.product_quantity - hd.2 } else pp) pp).product_id = pp.product_id := by
              intro pp
              by_cases hc : pp.product_id == product.product_id <;> simp [hc]
            have hfind : findProduct (decStock ps product.product_id hd.2) pq.1.product_id =
                some (if p3.product_id == product.product_id then { p3 with product_quantity := p3.product_quantity - hd.2 } else p3) := by
              unfold decStock
              rw [findProduct_map ps _ hg pq.1.product_id, hq1]
              rfl
            refine ⟨_, hfind, ?_, ?_⟩
            · rw [← hq2]
              exact effective_price_update p3 product.product_id (fun x => x - hd.2)
            · rw [← hq3]
              exact hg p3
          have hrows2 := ih (decStock ps product.product_id hd.2) ps2 rows2 hprt hrec
          rw [← hb, hrows2]
          simp [hp2, hp3]

theorem get_cart_items_snap (db : DB) (sess : SessionData) (user : Option Account) :
    ∀ pq ∈ get_cart_items db sess user, findProduct db.products pq.1.product_id = some pq.1 := by
  intro pq hmem
  unfold get_cart_items at hmem
  cases user with
  | some u =>
    rw [List.mem_filterMap] at hmem
    obtain ⟨ci, hci, hf⟩ := hmem
    cases hfp : findProduct db.products ci.product_id with
    | none => rw [hfp] at hf; exact absurd hf (by simp)
    | some p =>
      rw [hfp] at hf
      have hp1 : p = pq.1 := by
        have := Option.some.inj hf
        rw [← this]
      have hpid : p.product_id = ci.product_id := by
        have h2 := List.find?_some (show List.find? (fun x => x.product_id == ci.product_id) db.products = some p by simpa [findProduct] using hfp)
        simpa using h2
      rw [← hp1, hpid]
      exact hfp
  | none =>
    rw [List.mem_filterMap] at hmem
    obtain ⟨xy, hci, hf⟩ := hmem
    cases hfp : findProduct db.products xy.1 with
    | none => rw [hfp] at hf; exact absurd hf (by simp)
    | some p =>
      rw [hfp] at hf
      have hp1 : p = pq.1 := by
        have := Option.some.inj hf
        rw [← this]
      have hpid : p.product_id = xy.1 := by
        have h2 := List.find?_some (show List.find? (fun x => x.product_id == xy.1) db.products = some p by simpa [findProduct] using hfp)
        simpa using h2
      rw [← hp1, hpid]
      exact hfp

theorem restoreItems_stock (rows : List OrderItemRow) (ps ps' : List Product)
    (h : restoreItems rows ps = Except.ok ps') (pid : Nat) :
    stockOf ps' pid = (stockOf ps pid).map (fun s => s + rowsQty rows pid) := by
  induction rows generalizing ps with
  | nil =>
    unfold restoreItems at h
    injection h with h2
    subst h2
    cases hs : stockOf ps pid <;> simp [rowsQty_nil, hs]
  | cons it t ih =>
    unfold restoreItems at h
    cases hf : findProduct ps it.product_id with
    | none => rw [hf] at h; exact absurd h (by simp)
    | some p =>
      rw [hf] at h
      dsimp only at h
      have hmain := ih (incStock ps it.product_id it.quantity) h
      rw [hmain, stockOf_incStock, Option.map_map, rowsQty_cons]
      cases hs : stockOf ps pid with
      | none => rfl
      | some s =>
        simp only [Option.map, Function.comp, Option.some.injEq]
        by_cases hpp : pid = it.product_id
        · have hbeq : (it.product_id == pid) = true := by simp [hpp]
          simp [hbeq, hpp]
          omega
        · have hbeq : (it.product_id == pid) = false := by
            simp only [beq_eq_false_iff_ne]
            exact fun hcc => hpp hcc.symm
          simp [hbeq, hpp]

theorem restoreItems_isOk (rows : List OrderItemRow) (ps : List Product)
    (hall : ∀ r ∈ rows, (findProduct ps r.product_id).isSome) :
    ∃ ps', restoreItems rows ps = Except.ok ps' := by
  induction rows generalizing ps with
  | nil => exact ⟨ps, rfl⟩
  | cons it t ih =>
    have h1 := hall it (by simp)
    cases hf : findProduct ps it.product_id with
    | none => rw [hf] at h1; exact absurd h1 (by simp)
    | some p =>
      have hall2 : ∀ r ∈ t, (findProduct (incStock ps it.product_id it.quantity) r.product_id).isSome := by
        intro r hr
        have h2 := hall r (by simp [hr])
        have hst := stockOf_incStock ps it.product_id r.product_id it.quantity
        unfold stockOf at hst
        cases hg : findProduct ps r.product_id with
        | none => rw [hg] at h2; exact absurd h2 (by simp)
        | some pr =>
          rw [hg] at hst
          cases hh : findProduct (incStock ps it.product_id it.quantity) r.product_id with
          | none => rw [hh] at hst; exact absurd hst (by simp)
          | some w => simp
      obtain ⟨ps', hps'⟩ := ih (incStock ps it.product_id it.quantity) hall2
      refine ⟨ps', ?_⟩
      unfold restoreItems
      rw [hf]
      exact hps'

theorem restoreItemsSkip_stock (rows : List OrderItemRow) (ps : List Product) (pid : Nat)
    (hp : (stockOf ps pid).isSome) :
    stockOf (restoreItemsSkip rows ps) pid = (stockOf ps pid).map (fun s => s + rowsQty rows pid) := by
  induction rows generalizing ps with
  | nil =>
    cases hs : stockOf ps pid <;> simp [restoreItemsSkip, rowsQty_nil, hs]
  | cons it t ih =>
    unfold restoreItemsSkip
    cases hf : findProduct ps it.product_id with
    | none =>
      have hbeq : (it.product_id == pid) = false := by
        simp only [beq_eq_false_iff_ne]
        intro hcc
        rw [hcc] at hf
        unfold stockOf at hp
        rw [hf] at hp
        exact absurd hp (by simp)
      rw [ih ps hp, rowsQty_cons, hbeq]
      simp
    | some p =>
      have hp2 : (stockOf (incStock ps it.product_id it.quantity) pid).isSome := by
        rw [stockOf_incStock]
        cases hs : stockOf ps pid with
        | none => rw [hs] at hp; exact absurd hp (by simp)
        | some s => simp
      rw [ih (incStock ps it.product_id it.quantity) hp2, stockOf_incStock, Option.map_map, rowsQty_cons]
      cases hs : stockOf ps pid with
      | none => rw [hs] at hp; exact absurd hp (by simp)
      | some s =>
        simp only [Option.map, Function.comp, Option.some.injEq]
        by_cases hpp : pid = it.product_id
        · have hbeq : (it.product_id == pid) = true := by simp [hpp]
          simp [hbeq, hpp]
          omega
        · have hbeq : (it.product_id == pid) = false := by
            simp only [beq_eq_false_iff_ne]
            exact fun hcc => hpp hcc.symm
          simp [hbeq, hpp]

theorem confirmItems_stock (rows : List OrderItemRow) (ps ps' : List Product)
    (h : confirmItems rows ps = Except.ok ps') (pid : Nat) :
    stockOf ps' pid = (stockOf ps pid).map (fun s => s - rowsQty rows pid) := by
  induction rows generalizing ps with
  | nil =>
    unfold confirmItems at h
    injection h with h2
    subst h2
    cases hs : stockOf ps pid <;> simp [rowsQty_nil, hs]
  | cons it t ih =>
    unfold confirmItems at h
    cases hf : findProduct ps it.product_id with
    | none => rw [hf] at h; exact absurd h (by simp)
    | some p =>
      rw [hf] at h
      dsimp only at h
      by_cases hq : p.product_quantity < it.quantity
      · rw [if_pos hq] at h; exact absurd h (by simp)
      · rw [if_neg hq] at h
        have hmain := ih (decStock ps it.product_id it.quantity) h
        rw [hmain, stockOf_decStock, Option.map_map, rowsQty_cons]
        cases hs : stockOf ps pid with
        | none => rfl
        | some s =>
          simp only [Option.map, Function.comp, Option.some.injEq]
          by_cases hpp : pid = it.product_id
          · have hbeq : (it.product_id == pid) = true := by simp [hpp]
            simp [hbeq, hpp]
            omega
          · have hbeq : (it.product_id == pid) = false := by
              simp only [beq_eq_false_iff_ne]
              exact fun hcc => hpp hcc.symm
            simp [hbeq, hpp]

theorem foldl_add_extract (f : Product × Int → ℚ) (l : List (Product × Int)) (init : ℚ) :
    l.foldl (fun t x => t + f x) init = init + (l.map f).sum := by
  induction l generalizing init with
  | nil => simp
  | cons a t ih =>
    simp only [List.foldl_cons, List.map_cons, List.sum_cons]
    rw [ih]
    ring

theorem get_cart_total_sum (items : List (Product × Int)) :
    get_cart_total items = (items.map (fun pq => effective_price pq.1 * (pq.2 : ℚ))).sum := by
  unfold get_cart_total
  rw [foldl_add_extract]
  simp

theorem find?_append_right_of_none {α : Type} (p : α → Bool) (l1 l2 : List α)
    (h : List.find? p l1 = none) : List.find? p (l1 ++ l2) = List.find? p l2 := by
  rw [List.find?_append, h]
  rfl

theorem findOrder_append_fresh (l : List OrderRow) (order : OrderRow)
    (hfresh : ∀ o ∈ l, o.order_id ≠ order.order_id) :
    List.find? (fun o => o.order_id == order.order_id) (l ++ [order]) = some order := by
  rw [find?_append_right_of_none]
  · simp
  · rw [List.find?_eq_none]
    intro o ho
    simp [hfresh o ho]

theorem findOrder_map (l : List OrderRow) (g : OrderRow → OrderRow)
    (hg : ∀ o, (g o).order_id = o.order_id) (oid : Nat) :
    List.find? (fun o => o.order_id == oid) (l.map g) =
      (List.find? (fun o => o.order_id == oid) l).map g := by
  have hpred : ((fun o : OrderRow => o.order_id == oid) ∘ g) = (fun o : OrderRow => o.order_id == oid) := by
    funext o
    simp [Function.comp, hg o]
  rw [List.find?_map, hpred]

theorem filter_append_fresh (old rows : List OrderItemRow) (oid : Nat)
    (hold : ∀ it ∈ old, it.order_id ≠ oid) (hrows : ∀ r ∈ rows, r.order_id = oid) :
    (old ++ rows).filter (fun it => it.order_id == oid) = rows := by
  rw [List.filter_append]
  have h1 : old.filter (fun it => it.order_id == oid) = [] := by
    rw [List.filter_eq_nil_iff]
    intro it hit
    simp [hold it hit]
  have h2 : rows.filter (fun it => it.order_id == oid) = rows := by
    rw [List.filter_eq_self]
    intro r hr
    simp [hrows r hr]
  rw [h1, h2]
  rfl

theorem rows_map_oid (oid : Nat) (items : List (Product × Int)) :
    ∀ r ∈ items.map (fun pq => (⟨oid, pq.1.product_id, pq.2, some (effective_price pq.1)⟩ : OrderItemRow)),
      r.order_id = oid := by
  intro r hr
  rw [List.mem_map] at hr
  obtain ⟨pq, hmem, hpq⟩ := hr
  rw [← hpq]

theorem rowsQty_map_rows (oid : Nat) (items : List (Product × Int)) (pid : Nat) :
    rowsQty (items.map (fun pq => (⟨oid, pq.1.product_id, pq.2, some (effective_price pq.1)⟩ : OrderItemRow))) pid =
      qtySum items pid := by
  unfold rowsQty qtySum
  rw [List.map_map]
  rfl

theorem linesTotal_map_rows (oid : Nat) (items : List (Product × Int)) :
    linesTotal (items.map (fun pq => (⟨oid, pq.1.product_id, pq.2, some (effective_price pq.1)⟩ : OrderItemRow))) =
      get_cart_total items := by
  unfold linesTotal
  rw [List.map_map, get_cart_total_sum]
  rfl

theorem cancel_order_shape (db : DB) (oid : Nat) (email : String) (db2 : DB)
    (h : cancel_order db oid email = Except.ok db2) :
    ∃ order acct products2,
      findOrder db oid = some order ∧
      findAccountById db order.account_id = some acct ∧
      acct.account_email = email ∧
      ¬(order.shipping_status = ShippingStatus.DELIVERED ∨ order.shipping_status = ShippingStatus.IN_TRANSIT) ∧
      restoreItems (db.order_items.filter (fun it => it.order_id == oid)) db.products = Except.ok products2 ∧
      db2.products = products2 ∧
      db2.order_items = db.order_items ∧
      db2.voucher_usage = db.voucher_usage ∧
      db2.orders = db.orders.map (fun o => if o.order_id == oid then
        { o with shipping_status := ShippingStatus.CANCELLED,
                 payment_status := if order.payment_status = PaymentStatus.PAID then PaymentStatus.REFUNDED else PaymentStatus.CANCELLED } else o) := by
  unfold cancel_order at h
  cases ho : findOrder db oid with
  | none => rw [ho] at h; exact absurd h (by simp)
  | some order =>
    rw [ho] at h
    dsimp only at h
    cases ha : findAccountById db order.account_id with
    | none => rw [ha] at h; exact absurd h (by simp)
    | some acct =>
      rw [ha] at h
      dsimp only at h
      by_cases hemail : acct.account_email = email
      · rw [if_neg (by simp [hemail])] at h
        by_cases hst : order.shipping_status = ShippingStatus.DELIVERED ∨ order.shipping_status = ShippingStatus.IN_TRANSIT
        · rw [if_pos hst] at h; exact absurd h (by simp)
        · rw [if_neg hst] at h
          cases hr : restoreItems (db.order_items.filter (fun it => it.order_id == oid)) db.products with
          | error e => rw [hr] at h; exact absurd h (by simp)
          | ok products2 =>
            rw [hr] at h
            dsimp only at h
            injection h with h2
            subst h2
            exact ⟨order, acct, products2, rfl, ha, hemail, hst, rfl, rfl, rfl, rfl, rfl⟩
      · rw [if_pos (by simp [hemail])] at h
        exact absurd h (by simp)

theorem cancel_order_rejects (db : DB) (oid : Nat) (email : String) (order : OrderRow) (acct : Account)
    (ho : findOrder db oid = some order) (ha : findAccountById db order.account_id = some acct)
    (hemail : acct.account_email = email)
    (hst : order.shipping_status = ShippingStatus.DELIVERED ∨ order.shipping_status = ShippingStatus.IN_TRANSIT) :
    cancel_order db oid email = Except.error "Cannot cancel order that is already in transit or delivered" := by
  unfold cancel_order
  rw [ho]
  dsimp only
  rw [ha]
  dsimp only
  rw [if_neg (by simp [hemail]), if_pos hst]

theorem cancel_order_isOk (db : DB) (oid : Nat) (email : String) (order : OrderRow) (acct : Account)
    (ho : findOrder db oid = some order) (ha : findAccountById db order.account_id = some acct)
    (hemail : acct.account_email = email)
    (hst : ¬(order.shipping_status = ShippingStatus.DELIVERED ∨ order.shipping_status = ShippingStatus.IN_TRANSIT))
    (hall : ∀ r ∈ db.order_items.filter (fun it => it.order_id == oid), (findProduct db.products r.product_id).isSome) :
    ∃ db2, cancel_order db oid email = Except.ok db2 := by
  obtain ⟨ps2, hps2⟩ := restoreItems_isOk (db.order_items.filter (fun it => it.order_id == oid)) db.products hall
  unfold cancel_order
  rw [ho]
  dsimp only
  rw [ha]
  dsimp only
  rw [if_neg (by simp [hemail]), if_neg hst, hps2]
  exact ⟨_, rfl⟩

theorem confirm_payment_shape (db : DB) (sess : SessionData) (oid : Nat) (db2 : DB) (sess2 : SessionData)
    (h : confirm_payment db sess oid = Except.ok (db2, sess2)) :
    db2.voucher_usage = db.voucher_usage ∧ db2.order_items = db.order_items ∧
    ∃ order products2,
      findOrder db oid = some order ∧ order.payment_status = PaymentStatus.PENDING ∧
      confirmItems (db.order_items.filter (fun it => it.order_id == oid)) db.products = Except.ok products2 ∧
      db2.products = products2 ∧
      db2.orders = db.orders.map (fun o => if o.order_id == oid then { o with payment_status := PaymentStatus.PAID } else o) := by
  unfold confirm_payment at h
  cases ho : findOrder db oid with
  | none => rw [ho] at h; exact absurd h (by simp)
  | some order =>
    rw [ho] at h
    dsimp only at h
    by_cases hpend : order.payment_status = PaymentStatus.PENDING
    · rw [if_neg (by simp [hpend])] at h
      cases hc : confirmItems (db.order_items.filter (fun it => it.order_id == oid)) db.products with
      | error e => rw [hc] at h; exact absurd h (by simp)
      | ok products2 =>
        rw [hc] at h
        dsimp only at h
        cases hacct : findAccountById db order.account_id with
        | some acct =>
          rw [hacct] at h
          dsimp only at h
          injection h with h2
          injection h2 with hdb hsess
          subst hdb
          exact ⟨rfl, rfl, order, products2, rfl, hpend, rfl, rfl, rfl⟩
        | none =>
          rw [hacct] at h
          dsimp only at h
          injection h with h2
          injection h2 with hdb hsess
          subst hdb
          exact ⟨rfl, rfl, order, products2, rfl, hpend, rfl, rfl, rfl⟩
    · rw [if_pos (by simp [hpend])] at h
      exact absurd h (by simp)

theorem create_pending_order_shape (db : DB) (sess : SessionData) (email : String)
    (cd : CheckoutDetails) (db2 : DB) (order2 : OrderRow)
    (h : create_pending_order db sess email cd = Except.ok (db2, order2)) :
    ∃ user, findAccountByEmail db email = some user ∧
      (get_cart_items db sess (some user)).isEmpty = false ∧
      order2.order_id = db.next_order_id ∧
      order2.account_id = user.account_id ∧
      order2.address_id = cd.addressId ∧
      order2.payment_status = PaymentStatus.PENDING ∧
      order2.shipping_status = ShippingStatus.PROCESSING ∧
      ((sess.applied_voucher = none ∧ order2.voucher_code = none ∧ order2.voucher_discount = 0) ∨
        ∃ av, sess.applied_voucher = some av ∧ order2.voucher_code = some av.voucher_code ∧
          order2.voucher_discount = av.discount_amount) ∧
      order2.total_price = get_cart_total (get_cart_items db sess (some user)) + cd.shippingFee.getD 0 - order2.voucher_discount ∧
      db2.products = db.products ∧
      db2.voucher_usage = db.voucher_usage ∧
      db2.orders = db.orders ++ [order2] ∧
      db2.order_items = db.order_items ++ (get_cart_items db sess (some user)).map
        (fun pq => (⟨order2.order_id, pq.1.product_id, pq.2, none⟩ : OrderItemRow)) ∧
      db2.accounts = db.accounts ∧
      db2.cart_items = db.cart_items := by
  unfold create_pending_order at h
  dsimp only at h
  cases hu : findAccountByEmail db email with
  | none => rw [hu] at h; exact absurd h (by simp)
  | some user =>
    rw [hu] at h
    dsimp only at h
    by_cases hempty : (get_cart_items db sess (some user)).isEmpty
    · rw [if_pos hempty] at h; exact absurd h (by simp)
    · rw [if_neg hempty] at h
      injection h with h2
      injection h2 with hdb horder
      subst hdb
      subst horder
      refine ⟨user, rfl, by simpa using hempty, rfl, rfl, rfl, rfl, rfl, ?_, rfl, rfl, rfl, rfl, rfl, rfl, rfl⟩
      cases hav : sess.applied_voucher with
      | none => exact Or.inl ⟨rfl, by dsimp only, by dsimp only⟩
      | some av => exact Or.inr ⟨av, rfl, by dsimp only, by dsimp only⟩

theorem update_shipping_status_ok_iff (db : DB) (oid : Nat) (status : ShippingStatus) (notes : Option String) :
    (∃ o, findOrder db oid = some o) ↔ ∃ db2, update_shipping_status db oid status notes = Except.ok db2 := by
  unfold update_shipping_status
  cases ho : findOrder db oid with
  | none => simp
  | some o => simp

theorem update_shipping_status_preserves (db : DB) (oid : Nat) (status : ShippingStatus)
    (notes : Option String) (db2 : DB)
    (h : update_shipping_status db oid status notes = Except.ok db2) :
    db2.order_items = db.order_items ∧ db2.voucher_usage = db.voucher_usage ∧
    ∃ order, findOrder db oid = some order ∧
      db2.orders = db.orders.map (fun o => if o.order_id == oid then
        { o with shipping_status := status,
                 payment_status :=
                   (if status = ShippingStatus.COLLECTED ∧
                       (if status = ShippingStatus.CANCELLED then
                         (if order.payment_status = PaymentStatus.PAID then PaymentStatus.REFUNDED else PaymentStatus.CANCELLED)
                        else order.payment_status) = PaymentStatus.PENDING then PaymentStatus.PAID
                    else (if status = ShippingStatus.CANCELLED then
                         (if order.payment_status = PaymentStatus.PAID then PaymentStatus.REFUNDED else PaymentStatus.CANCELLED)
                        else order.payment_status)) } else o) := by
  unfold update_shipping_status at h
  cases ho : findOrder db oid with
  | none => rw [ho] at h; exact absurd h (by simp)
  | some order =>
    rw [ho] at h
    dsimp only at h
    injection h with h2
    subst h2
    exact ⟨rfl, rfl, order, rfl, rfl⟩

theorem fail_payment_preserves (db : DB) (oid : Nat) :
    (fail_payment db oid).order_items = db.order_items ∧
    (fail_payment db oid).voucher_usage = db.voucher_usage ∧
    ((fail_payment db oid).orders = db.orders ∨
      (fail_payment db oid).orders = db.orders.map (fun o => if o.order_id == oid then
        { o with payment_status := PaymentStatus.CANCELLED, shipping_status := ShippingStatus.CANCELLED } else o)) := by
  unfold fail_payment
  cases ho : findOrder db oid with
  | none => exact ⟨rfl, rfl, Or.inl rfl⟩
  | some o => exact ⟨rfl, rfl, Or.inr rfl⟩

theorem mem_map_orders (l : List OrderRow) (g : OrderRow → OrderRow)
    (hg : ∀ o, (g o).order_id = o.order_id ∧ (g o).total_price = o.total_price ∧ (g o).voucher_discount = o.voucher_discount) :
    ∀ o ∈ l.map g, ∃ o0 ∈ l, o0.order_id = o.order_id ∧ o.total_price = o0.total_price ∧ o.voucher_discount = o0.voucher_discount := by
  intro o ho
  rw [List.mem_map] at ho
  obtain ⟨o0, h0, hrf⟩ := ho
  subst hrf
  exact ⟨o0, h0, (hg o0).1.symm, (hg o0).2.1, (hg o0).2.2⟩

theorem apply_voucher_shape (db : DB) (sess : SessionData) (raw : String) (u : Option Account)
    (now : Int) (sess2 : SessionData) (resp : VoucherResponse)
    (h : apply_voucher db sess raw u now = Except.ok (sess2, resp)) :
    ∃ v, findVoucher db (pyUpper (pyStrip raw)) = some v ∧
      resp.voucher_code = pyUpper (pyStrip raw) ∧
      resp.discount_amount = calcDiscount v.discount_type v.discount_value v.max_discount_amount
        (get_cart_total (get_cart_items db sess u)) ∧
      resp.new_total = get_cart_total (get_cart_items db sess u) - resp.discount_amount ∧
      sess2 = { sess with applied_voucher := some ⟨pyUpper (pyStrip raw), resp.discount_amount⟩ } ∧
      v.is_active = true ∧ v.valid_from ≤ now ∧ now ≤ v.valid_until ∧
      ¬(truthyI v.usage_limit = true ∧ v.usage_count ≥ v.usage_limit.getD 0) ∧
      (∀ uu, u = some uu → findUsage db (pyUpper (pyStrip raw)) uu.account_id = none) ∧
      get_cart_total (get_cart_items db sess u) ≠ 0 := by
  unfold apply_voucher at h
  dsimp only at h
  cases hf : findVoucher db (pyUpper (pyStrip raw)) with
  | none => rw [hf] at h; exact absurd h (by simp)
  | some v =>
    rw [hf] at h
    dsimp only at h
    by_cases hact : v.is_active
    · rw [if_neg (by simp [hact])] at h
      by_cases h1 : now < v.valid_from
      · rw [if_pos h1] at h; exact absurd h (by simp)
      · rw [if_neg h1] at h
        by_cases h2 : now > v.valid_until
        · rw [if_pos h2] at h; exact absurd h (by simp)
        · rw [if_neg h2] at h
          by_cases h3 : truthyI v.usage_limit = true ∧ v.usage_count ≥ v.usage_limit.getD 0
          · rw [if_pos h3] at h; exact absurd h (by simp)
          · rw [if_neg h3] at h
            cases u with
            | none =>
              rw [if_neg (by simp)] at h
              by_cases h5 : get_cart_total (get_cart_items db sess none) = 0
              · rw [if_pos h5] at h; exact absurd h (by simp)
              · rw [if_neg h5] at h
                by_cases h6 : truthyQ v.min_purchase_amount = true ∧
                    get_cart_total (get_cart_items db sess none) < v.min_purchase_amount.getD 0
                · rw [if_pos h6] at h; exact absurd h (by simp)
                · rw [if_neg h6] at h
                  injection h with h7
                  injection h7 with hsess hresp
                  subst hsess
                  subst hresp
                  refine ⟨v, rfl, rfl, rfl, rfl, rfl, hact, by omega, by omega, h3, ?_, h5⟩
                  intro uu huu
                  exact absurd huu (by simp)
            | some uu =>
              dsimp only at h
              by_cases h4 : (findUsage db (pyUpper (pyStrip raw)) uu.account_id).isSome
              · rw [if_pos h4] at h; exact absurd h (by simp)
              · rw [if_neg h4] at h
                by_cases h5 : get_cart_total (get_cart_items db sess (some uu)) = 0
                · rw [if_pos h5] at h; exact absurd h (by simp)
                · rw [if_neg h5] at h
                  by_cases h6 : truthyQ v.min_purchase_amount = true ∧
                      get_cart_total (get_cart_items db sess (some uu)) < v.min_purchase_amount.getD 0
                  · rw [if_pos h6] at h; exact absurd h (by simp)
                  · rw [if_neg h6] at h
                    injection h with h7
                    injection h7 with hsess hresp
                    subst hsess
                    subst hresp
                    refine ⟨v, rfl, rfl, rfl, rfl, rfl, hact, by omega, by omega, h3, ?_, h5⟩
                    intro uu2 huu2
                    injection huu2 with huu3
                    subst huu3
                    cases hus : findUsage db (pyUpper (pyStrip raw)) uu.account_id with
                    | none => rfl
                    | some w => rw [hus] at h4; exact absurd (by simp) h4
    · have hfalse : v.is_active = false := by
        cases hb : v.is_active
        · rfl
        · exact absurd hb hact
      rw [if_pos (by simp [hfalse])] at h
      exact absurd h (by simp)

theorem validate_used (db : DB) (accId : Nat) (subtotal : ℚ) (now : Int) (av : AppliedVoucher)
    (u : VoucherUsageRow) (hused : findUsage db av.voucher_code accId = some u) :
    validateVoucherAtOrder db accId subtotal now av = (none, 0) := by
  unfold validateVoucherAtOrder
  dsimp only
  cases hf : findVoucher db av.voucher_code with
  | none => rfl
  | some v =>
    dsimp only
    by_cases hact : v.is_active
    · rw [if_pos hact]
      by_cases hwin : v.valid_from ≤ now ∧ now ≤ v.valid_until
      · rw [if_pos hwin, hused]
      · rw [if_neg hwin]
    · rw [if_neg hact]

/-- C9: the shipping fee is the base rate when coordinates are missing (no
priority surcharge is added on that path), and otherwise base rate plus
distance times per-km rate plus the surcharge for Priority Delivery,
rounded to two decimals (an integer number of hundredths). -/
theorem C9_shipping_fee (geo : ℚ × ℚ → ℚ × ℚ → ℚ) (warehouse : ℚ × ℚ)
    (address : Address) (delivery_method : String) :
    ((truthyQ address.latitude = false ∨ truthyQ address.longitude = false) →
      calculate_shipping_fee geo warehouse address delivery_method = 50) ∧
    (truthyQ address.latitude = true → truthyQ address.longitude = true →
      calculate_shipping_fee geo warehouse address delivery_method =
        round2 (50 + geo warehouse (address.latitude.getD 0, address.longitude.getD 0) * 20 +
          (if delivery_method = "Priority Delivery" then 100 else 0)) ∧
      ∃ n : ℤ, calculate_shipping_fee geo warehouse address delivery_method = (n : ℚ) / 100) := by
  constructor
  · intro hcase
    unfold calculate_shipping_fee BASE_RATE
    rw [if_pos (by rcases hcase with hc | hc <;> simp [hc])]
  · intro hlat hlng
    unfold calculate_shipping_fee BASE_RATE PER_KM_RATE PRIORITY_FEE_ADDITION
    rw [if_neg (by simp [hlat, hlng])]
    dsimp only
    constructor
    · by_cases hdm : delivery_method = "Priority Delivery"
      · rw [if_pos (by simp [hdm]), if_pos hdm]
      · rw [if_neg (by simp [hdm]), if_neg hdm, add_zero]
    · by_cases hdm : delivery_method = "Priority Delivery"
      · rw [if_pos (by simp [hdm])]
        exact ⟨_, rfl⟩
      · rw [if_neg (by simp [hdm])]
        exact ⟨_, rfl⟩

/-- C9 witness: a concrete address with coordinates and a concrete
coordinate-free address, evaluated through the theorem. -/
theorem C9_shipping_fee_witness :
    truthyQ addrNC.latitude = false ∧
    calculate_shipping_fee (fun _ _ => 3) (0, 0) addrNC "Priority Delivery" = 50 :=
  ⟨rfl, (C9_shipping_fee (fun _ _ => 3) (0, 0) addrNC "Priority Delivery").1 (Or.inl rfl)⟩

/-- C9 counterexample: for an address without coordinates and Priority
Delivery the code returns the bare base rate 50, not base rate plus the
100 surcharge as the claim asserts. -/
theorem C9_counterexample :
    calculate_shipping_fee (fun _ _ => 3) (0, 0) addrNC "Priority Delivery" = 50 ∧
    (50 : ℚ) ≠ 50 + 100 := by
  constructor
  · norm_num [calculate_shipping_fee, truthyQ, addrNC, BASE_RATE]
  · norm_num

/-- C8: discount bounds for the shared discount computation, the capped
percentage scenario, and the link to the apply_voucher endpoint.  The
percentage cap only applies when it is set and nonzero (Python truthiness),
and keeps the discount within the cap only when the cap is nonnegative. -/
theorem C8_discount_bounds :
    (∀ dv sub : ℚ, ∀ cap : Option ℚ, 0 ≤ dv → 0 < sub →
      calcDiscount "fixed_amount" dv cap sub = min dv sub ∧
      0 ≤ calcDiscount "fixed_amount" dv cap sub ∧
      calcDiscount "fixed_amount" dv cap sub ≤ sub) ∧
    (∀ dv sub m : ℚ, 0 ≤ dv → 0 < sub → m ≠ 0 →
      calcDiscount "percentage" dv (some m) sub = min (sub * (dv / 100)) m ∧
      (0 ≤ m → 0 ≤ calcDiscount "percentage" dv (some m) sub ∧
        calcDiscount "percentage" dv (some m) sub ≤ m)) ∧
    (∀ dv sub : ℚ, 0 ≤ dv → 0 < sub →
      calcDiscount "percentage" dv none sub = sub * (dv / 100) ∧
      0 ≤ calcDiscount "percentage" dv none sub) ∧
    calcDiscount "percentage" 10 (some 80) 1000 = 80 ∧
    (∀ db sess raw u now sess2 resp,
      apply_voucher db sess raw u now = Except.ok (sess2, resp) →
      ∃ v, findVoucher db (pyUpper (pyStrip raw)) = some v ∧
        resp.discount_amount = calcDiscount v.discount_type v.discount_value v.max_discount_amount
          (get_cart_total (get_cart_items db sess u)) ∧
        sess2.applied_voucher = some ⟨pyUpper (pyStrip raw), resp.discount_amount⟩) := by
  refine ⟨?_, ?_, ?_, ?_, ?_⟩
  · intro dv sub cap hdv hsub
    refine ⟨rfl, le_min hdv (le_of_lt hsub), min_le_right dv sub⟩
  · intro dv sub m hdv hsub hm
    have hcap : truthyQ (some m) = true := by simp [truthyQ, hm]
    constructor
    · simp [calcDiscount, hcap]
    · intro hm0
      have hd : 0 ≤ sub * (dv / 100) := by positivity
      have heq : calcDiscount "percentage" dv (some m) sub = min (sub * (dv / 100)) m := by
        simp [calcDiscount, hcap]
      rw [heq]
      exact ⟨le_min hd hm0, min_le_right _ _⟩
  · intro dv sub hdv hsub
    have hd : 0 ≤ sub * (dv / 100) := by positivity
    exact ⟨by simp [calcDiscount, truthyQ], by simpa [calcDiscount, truthyQ] using hd⟩
  · norm_num [calcDiscount, truthyQ, min_def]
  · intro db sess raw u now sess2 resp h
    obtain ⟨v, hv, hcode, hdisc, hnt, hsess, hrest⟩ := apply_voucher_shape db sess raw u now sess2 resp h
    exact ⟨v, hv, hdisc, by rw [hsess]⟩

/-- C8 witness: the spec scenario (subtotal 1000, 10 percent voucher capped
at 80) evaluated through the theorem at the apply_voucher endpoint on a
concrete database. -/
theorem C8_discount_bounds_witness :
    calcDiscount "percentage" 10 (some 80) 1000 = 80 ∧
    (0 : ℚ) ≤ 10 ∧ (0 : ℚ) < 1000 ∧ (80 : ℚ) ≠ 0 ∧
    calcDiscount "percentage" 10 (some 80) 1000 = min (1000 * ((10 : ℚ) / 100)) 80 :=
  ⟨C8_discount_bounds.2.2.2.1, by norm_num, by norm_num, by norm_num,
    (C8_discount_bounds.2.1 10 1000 80 (by norm_num) (by norm_num) (by norm_num)).1⟩

/-- C8 counterexample: a percentage voucher whose max_discount_amount is
set to 0 is not clamped at all (Python truthiness treats the cap as
absent), so the discount 100 exceeds the set cap 0, contrary to the claim
that a set cap always bounds the discount. -/
theorem C8_counterexample :
    calcDiscount "percentage" 10 (some 0) 1000 = 100 ∧ ¬((100 : ℚ) ≤ 0) := by
  constructor
  · norm_num [calcDiscount, truthyQ]
  · norm_num

/-- C6 (amended): customer cancellation is rejected exactly when the order
is DELIVERED or IN_TRANSIT; any other shipping status (including COLLECTED,
CANCELLED and DELIVERY_FAILED, not only PROCESSING and
PREPARING_FOR_SHIPMENT) allows cancellation.  On rejection the operation
returns an error and, by the transaction convention, no state changes. -/
theorem C6_cancel_window (db : DB) (oid : Nat) (email : String) (order : OrderRow) (acct : Account)
    (ho : findOrder db oid = some order)
    (ha : findAccountById db order.account_id = some acct)
    (hemail : acct.account_email = email) :
    ((order.shipping_status = ShippingStatus.DELIVERED ∨ order.shipping_status = ShippingStatus.IN_TRANSIT) →
      cancel_order db oid email = Except.error "Cannot cancel order that is already in transit or delivered") ∧
    (¬(order.shipping_status = ShippingStatus.DELIVERED ∨ order.shipping_status = ShippingStatus.IN_TRANSIT) →
      (∀ r ∈ db.order_items.filter (fun it => it.order_id == oid), (findProduct db.products r.product_id).isSome) →
      ∃ db2, cancel_order db oid email = Except.ok db2) :=
  ⟨fun hst => cancel_order_rejects db oid email order acct ho ha hemail hst,
   fun hst hall => cancel_order_isOk db oid email order acct ho ha hemail hst hall⟩

/-- C6 witness: a concrete DELIVERED order whose customer cancellation is
rejected, via the theorem. -/
theorem C6_cancel_window_witness :
    findOrder deliveredDB0 10 = some delOrd0 ∧
    delOrd0.shipping_status = ShippingStatus.DELIVERED ∧
    cancel_order deliveredDB0 10 "u@x.com" = Except.error "Cannot cancel order that is already in transit or delivered" :=
  ⟨rfl, rfl, (C6_cancel_window deliveredDB0 10 "u@x.com" delOrd0 acct1 rfl rfl rfl).1 (Or.inl rfl)⟩

/-- C6 counterexample: an order in the terminal COLLECTED state, which is
in neither PROCESSING nor PREPARING_FOR_SHIPMENT, is cancelled
successfully by the customer, contradicting the claim that cancellation
succeeds only from those two states. -/
theorem C6_counterexample :
    (findOrder collectedDB0 10).map (fun o => o.shipping_status) = some ShippingStatus.COLLECTED ∧
    cancel_order collectedDB0 10 "u@x.com" = Except.ok c6CancDB ∧
    ShippingStatus.COLLECTED ≠ ShippingStatus.PROCESSING ∧
    ShippingStatus.COLLECTED ≠ ShippingStatus.PREPARING_FOR_SHIPMENT :=
  ⟨rfl, rfl, by decide, by decide⟩

/-- C10 (amended): create_order checks, before any mutation, that the user
exists, the cart is non-empty and the address belongs to the requesting
account, raising the respective errors; but for pickup delivery a missing
store id silently produces an order without a pickup record and the store
is never validated.  create_pending_order succeeds exactly when the user
exists and the cart is non-empty: address ownership is not checked on the
gateway path. -/
theorem C10_precondition_checks (db : DB) (sess : SessionData) (email : String)
    (cd : CheckoutDetails) (now : Int) :
    (findAccountByEmail db email = none → create_order db sess email cd now = Except.error "User not found") ∧
    (∀ user, findAccountByEmail db email = some user →
      (get_cart_items db sess (some user)).isEmpty = true →
      create_order db sess email cd now = Except.error "Cart is empty") ∧
    (∀ user, findAccountByEmail db email = some user →
      (get_cart_items db sess (some user)).isEmpty = false →
      findAddressOwned db cd.addressId user.account_id = none →
      create_order db sess email cd now = Except.error "Invalid address") ∧
    (∀ db2 sess2 order, create_order db sess email cd now = Except.ok (db2, sess2, order) →
      cd.storeId = none → db2.order_pickups = db.order_pickups) ∧
    ((∃ r, create_pending_order db sess email cd = Except.ok r) ↔
      (∃ user, findAccountByEmail db email = some user ∧ (get_cart_items db sess (some user)).isEmpty = false)) := by
  refine ⟨?_, ?_, ?_, ?_, ?_⟩
  · intro hu
    unfold create_order
    rw [hu]
  · intro user hu he
    unfold create_order
    rw [hu]
    dsimp only
    rw [if_pos he]
  · intro user hu he haddr
    unfold create_order
    rw [hu]
    dsimp only
    rw [if_neg (by simp [he]), haddr]
  · intro db2 sess2 order h hsid
    obtain ⟨user, products2, rows, hshape⟩ := create_order_shape db sess email cd now db2 sess2 order h
    exact hshape.2.2.2.2.2.2.2.2.2.2.2.2.2.2.2.1 hsid
  · constructor
    · rintro ⟨⟨db2, order2⟩, hr⟩
      obtain ⟨user, hu, hne, hrest⟩ := create_pending_order_shape db sess email cd db2 order2 hr
      exact ⟨user, hu, hne⟩
    · rintro ⟨user, hu, hne⟩
      unfold create_pending_order
      rw [hu]
      dsimp only
      rw [if_neg (by simp [hne])]
      exact ⟨_, rfl⟩

/-- C10 witness: a checkout referencing an address id the account does not
own is rejected with the Invalid address error, via the theorem. -/
theorem C10_precondition_checks_witness :
    findAccountByEmail db0 "u@x.com" = some acct1 ∧
    (get_cart_items db0 sess0 (some acct1)).isEmpty = false ∧
    findAddressOwned db0 cdBadAddr.addressId acct1.account_id = none ∧
    create_order db0 sess0 "u@x.com" cdBadAddr 0 = Except.error "Invalid address" :=
  ⟨rfl, rfl, rfl,
    (C10_precondition_checks db0 sess0 "u@x.com" cdBadAddr 0).2.2.1 acct1 rfl rfl rfl⟩

/-- C10 counterexample: a pickup checkout without a store id succeeds and
persists an order with no pickup record, where the claim requires a
validation error and no persisted order. -/
theorem C10_counterexample :
    cdPickNoStore.deliveryMethod = some "Pickup Delivery" ∧
    cdPickNoStore.storeId = none ∧
    (create_order db0 sess0 "u@x.com" cdPickNoStore 0).isOk = true ∧
    (okDB3 (create_order db0 sess0 "u@x.com" cdPickNoStore 0) db0).order_pickups = [] ∧
    (okDB3 (create_order db0 sess0 "u@x.com" cdPickNoStore 0) db0).orders ≠ [] :=
  ⟨rfl, rfl, rfl, rfl, by decide⟩

/-- C7 (amended): when the admin endpoint transitions an order to
COLLECTED, a PENDING payment flips to PAID with exactly one extra payment
history event appended before the status event, and a non-PENDING payment
is left unchanged with only the status event; the customer mark-collected
endpoint never performs the transition at all (it always fails, its
source referencing the nonexistent ShippingStatus.READY_FOR_PICKUP). -/
theorem C7_collected_flip (db : DB) (oid : Nat) (notes : Option String) (db2 : DB) (order : OrderRow)
    (ho : findOrder db oid = some order)
    (h : update_shipping_status db oid ShippingStatus.COLLECTED notes = Except.ok db2) :
    (order.payment_status = PaymentStatus.PENDING →
      (∃ o2, findOrder db2 oid = some o2 ∧ o2.payment_status = PaymentStatus.PAID ∧
        o2.shipping_status = ShippingStatus.COLLECTED) ∧
      db2.order_history = db.order_history ++
        [⟨oid, "PAID", "Payment received on collection"⟩,
         ⟨oid, "COLLECTED", if truthyS notes = true then notes.getD "" else "Status updated to COLLECTED"⟩]) ∧
    (order.payment_status ≠ PaymentStatus.PENDING →
      (∃ o2, findOrder db2 oid = some o2 ∧ o2.payment_status = order.payment_status ∧
        o2.shipping_status = ShippingStatus.COLLECTED) ∧
      db2.order_history = db.order_history ++
        [⟨oid, "COLLECTED", if truthyS notes = true then notes.getD "" else "Status updated to COLLECTED"⟩]) ∧
    (∀ dbx oidx u, ∃ e, mark_order_collected dbx oidx u = Except.error e) := by
  unfold update_shipping_status at h
  rw [ho] at h
  dsimp only at h
  have hCC : ¬(ShippingStatus.COLLECTED = ShippingStatus.CANCELLED) := by decide
  rw [if_neg hCC] at h
  rw [if_neg hCC] at h
  have hoid : order.order_id = oid := by
    have h2 := List.find?_some (show List.find? (fun o => o.order_id == oid) db.orders = some order by simpa [findOrder] using ho)
    simpa using h2
  refine ⟨?_, ?_, ?_⟩
  · intro hpend
    have hT : ShippingStatus.COLLECTED = ShippingStatus.COLLECTED ∧ order.payment_status = PaymentStatus.PENDING := ⟨rfl, hpend⟩
    rw [if_pos hT] at h
    rw [if_pos hT] at h
    injection h with h2
    subst h2
    constructor
    · have hg : ∀ o : OrderRow, ((fun o : OrderRow => if o.order_id == oid then
          { o with shipping_status := ShippingStatus.COLLECTED, payment_status := PaymentStatus.PAID } else o) o).order_id = o.order_id := by
        intro o
        by_cases hc : o.order_id == oid <;> simp [hc]
      refine ⟨{ order with shipping_status := ShippingStatus.COLLECTED, payment_status := PaymentStatus.PAID }, ?_, rfl, rfl⟩
      unfold findOrder
      dsimp only
      rw [findOrder_map db.orders _ hg oid]
      rw [show List.find? (fun o => o.order_id == oid) db.orders = some order by simpa [findOrder] using ho]
      simp [hoid]
    · rw [List.append_assoc]
      rfl
  · intro hpend
    have hcond : ¬(ShippingStatus.COLLECTED = ShippingStatus.COLLECTED ∧ order.payment_status = PaymentStatus.PENDING) :=
      fun hc => hpend hc.2
    rw [if_neg hcond] at h
    rw [if_neg hcond] at h
    injection h with h2
    subst h2
    constructor
    · have hg : ∀ o : OrderRow, ((fun o : OrderRow => if o.order_id == oid then
          { o with shipping_status := ShippingStatus.COLLECTED, payment_status := order.payment_status } else o) o).order_id = o.order_id := by
        intro o
        by_cases hc : o.order_id == oid <;> simp [hc]
      refine ⟨{ order with shipping_status := ShippingStatus.COLLECTED, payment_status := order.payment_status }, ?_, rfl, rfl⟩
      unfold findOrder
      dsimp only
      rw [findOrder_map db.orders _ hg oid]
      rw [show List.find? (fun o => o.order_id == oid) db.orders = some order by simpa [findOrder] using ho]
      simp [hoid]
    · rfl
  · intro dbx oidx u
    unfold mark_order_collected
    cases ho2 : findOrder dbx oidx with
    | none => exact ⟨_, rfl⟩
    | some o =>
      dsimp only
      split
      · exact ⟨_, rfl⟩
      · split
        · exact ⟨_, rfl⟩
        · exact ⟨_, rfl⟩

/-- C7 witness: a concrete pickup COD order with PENDING payment collected
through the admin endpoint, via the theorem. -/
theorem C7_collected_flip_witness :
    collOrd0.payment_status = PaymentStatus.PENDING ∧
    ((∃ o2, findOrder collectedDB0 10 = some o2 ∧ o2.payment_status = PaymentStatus.PAID ∧
        o2.shipping_status = ShippingStatus.COLLECTED) ∧
      collectedDB0.order_history = pickDB0.order_history ++
        [⟨10, "PAID", "Payment received on collection"⟩,
         ⟨10, "COLLECTED", "Status updated to COLLECTED"⟩]) :=
  ⟨rfl, (C7_collected_flip pickDB0 10 none collectedDB0 collOrd0 rfl rfl).1 rfl⟩

/-- C7 counterexample: the customer mark-collected endpoint, applied to a
pickup order with PENDING payment, fails with an AttributeError (the
source compares against a ShippingStatus member that does not exist) and
so never flips payment_status to PAID nor appends a payment event,
contradicting the claim about the customer path. -/
theorem C7_counterexample :
    (findOrder pickDB0 10).map (fun o => (o.payment_status, o.delivery_method)) =
      some (PaymentStatus.PENDING, some "Pickup Delivery") ∧
    mark_order_collected pickDB0 10 acct1 = Except.error "AttributeError: READY_FOR_PICKUP" :=
  ⟨rfl, rfl⟩

/-- C5 (amended): orders are created in the initial PROCESSING state, but
terminal states are not enforced: update_shipping_status succeeds for
every existing order regardless of its current status, and transitioning
an order whose status is already CANCELLED to CANCELLED again restores the
stock of its lines a second time. -/
theorem C5_terminal_not_enforced (db : DB) (oid : Nat) (status : ShippingStatus) (notes : Option String) :
    (∀ sess email cd now db' sess' order,
      create_order db sess email cd now = Except.ok (db', sess', order) →
      order.shipping_status = ShippingStatus.PROCESSING) ∧
    ((∃ o, findOrder db oid = some o) ↔ ∃ db2, update_shipping_status db oid status notes = Except.ok db2) ∧
    (∀ order db2, findOrder db oid = some order →
      order.shipping_status = ShippingStatus.CANCELLED →
      update_shipping_status db oid ShippingStatus.CANCELLED notes = Except.ok db2 →
      ∀ pid, (stockOf db.products pid).isSome = true →
        stockOf db2.products pid = (stockOf db.products pid).map
          (fun s => s + rowsQty (db.order_items.filter (fun it => it.order_id == oid)) pid)) := by
  refine ⟨?_, update_shipping_status_ok_iff db oid status notes, ?_⟩
  · intro sess email cd now db' sess' order h
    obtain ⟨user, products2, rows, hshape⟩ := create_order_shape db sess email cd now db' sess' order h
    exact hshape.2.2.2.2.2.1
  · intro order db2 ho hcanc h pid hp
    unfold update_shipping_status at h
    rw [ho] at h
    dsimp only at h
    rw [if_pos rfl, if_pos rfl, if_neg (by simp)] at h
    injection h with h2
    subst h2
    exact restoreItemsSkip_stock (db.order_items.filter (fun it => it.order_id == oid)) db.products pid hp

/-- C5 witness: re-cancelling the already-CANCELLED concrete order, via
the theorem: the stock of product 1 is incremented by the order quantity a
second time. -/
theorem C5_terminal_not_enforced_witness :
    findOrder cancDB1 10 = some cancOrd1 ∧
    cancOrd1.shipping_status = ShippingStatus.CANCELLED ∧
    stockOf cancDB2.products 1 = (stockOf cancDB1.products 1).map
      (fun s => s + rowsQty (cancDB1.order_items.filter (fun it => it.order_id == 10)) 1) :=
  ⟨rfl, rfl,
    (C5_terminal_not_enforced cancDB1 10 ShippingStatus.CANCELLED none).2.2 cancOrd1 cancDB2 rfl rfl rfl 1 rfl⟩

/-- C5 counterexample: a CANCELLED (terminal) order is transitioned to
CANCELLED again by update_shipping_status; the call succeeds and restores
stock a second time (5 becomes 7), contradicting the claim that terminal
orders allow no further transitions or re-applied side effects. -/
theorem C5_counterexample :
    (findOrder cancDB1 10).map (fun o => o.shipping_status) = some ShippingStatus.CANCELLED ∧
    stockOf cancDB1.products 1 = some 5 ∧
    update_shipping_status cancDB1 10 ShippingStatus.CANCELLED none = Except.ok cancDB2 ∧
    stockOf cancDB2.products 1 = some 7 ∧
    (7 : Int) ≠ 5 :=
  ⟨rfl, rfl, rfl, rfl, by decide⟩

theorem validate_not_found (db : DB) (accId : Nat) (subtotal : ℚ) (now : Int) (av : AppliedVoucher)
    (hf : findVoucher db av.voucher_code = none) :
    validateVoucherAtOrder db accId subtotal now av = (none, 0) := by
  unfold validateVoucherAtOrder
  dsimp only
  rw [hf]

theorem validate_inactive (db : DB) (accId : Nat) (subtotal : ℚ) (now : Int) (av : AppliedVoucher)
    (v : Voucher) (hf : findVoucher db av.voucher_code = some v) (h0 : v.is_active = false) :
    validateVoucherAtOrder db accId subtotal now av = (none, 0) := by
  unfold validateVoucherAtOrder
  dsimp only
  rw [hf]
  dsimp only
  rw [if_neg (by simp [h0])]

theorem validate_outside_window (db : DB) (accId : Nat) (subtotal : ℚ) (now : Int) (av : AppliedVoucher)
    (v : Voucher) (hf : findVoucher db av.voucher_code = some v)
    (hw : ¬(v.valid_from ≤ now ∧ now ≤ v.valid_until)) :
    validateVoucherAtOrder db accId subtotal now av = (none, 0) := by
  unfold validateVoucherAtOrder
  dsimp only
  rw [hf]
  dsimp only
  by_cases hact : v.is_active
  · rw [if_pos hact, if_neg hw]
  · rw [if_neg hact]

theorem validate_limit_reached (db : DB) (accId : Nat) (subtotal : ℚ) (now : Int) (av : AppliedVoucher)
    (v : Voucher) (hf : findVoucher db av.voucher_code = some v)
    (hl : truthyI v.usage_limit = true ∧ v.usage_count ≥ v.usage_limit.getD 0) :
    validateVoucherAtOrder db accId subtotal now av = (none, 0) := by
  unfold validateVoucherAtOrder
  dsimp only
  rw [hf]
  dsimp only
  by_cases hact : v.is_active
  · rw [if_pos hact]
    by_cases hwin : v.valid_from ≤ now ∧ now ≤ v.valid_until
    · rw [if_pos hwin]
      cases hus : findUsage db av.voucher_code accId with
      | some u => rfl
      | none =>
        dsimp only
        rw [if_pos hl]
    · rw [if_neg hwin]
  · rw [if_neg hact]

theorem validate_pass (db : DB) (accId : Nat) (subtotal : ℚ) (now : Int) (av : AppliedVoucher)
    (v : Voucher) (hf : findVoucher db av.voucher_code = some v) (hact : v.is_active = true)
    (hwin : v.valid_from ≤ now ∧ now ≤ v.valid_until)
    (hus : findUsage db av.voucher_code accId = none)
    (hlim : ¬(truthyI v.usage_limit = true ∧ v.usage_count ≥ v.usage_limit.getD 0)) :
    validateVoucherAtOrder db accId subtotal now av =
      (some av.voucher_code, calcDiscount v.discount_type v.discount_value v.max_discount_amount subtotal) := by
  unfold validateVoucherAtOrder
  dsimp only
  rw [hf]
  dsimp only
  rw [if_pos hact, if_pos hwin, hus]
  dsimp only
  rw [if_neg hlim]

/-- C1 (amended): a COD order created by create_order satisfies the stored
invariant total = sum of line unit_price times quantity + shipping fee -
voucher discount, with every line carrying a unit_price snapshot; and no
later lifecycle operation (update_shipping_status, cancel_order,
confirm_payment, fail_payment) changes any stored order line or any
order total.  (create_pending_order violates the claim: its lines carry no
unit_price; see the counterexample.) -/
theorem C1_total_invariant (db : DB) (sess : SessionData) (email : String) (cd : CheckoutDetails)
    (now : Int) (db2 : DB) (sess2 : SessionData) (order : OrderRow)
    (hfresh : ∀ it ∈ db.order_items, it.order_id ≠ db.next_order_id)
    (h : create_order db sess email cd now = Except.ok (db2, sess2, order)) :
    (∀ it ∈ db2.order_items.filter (fun it2 => it2.order_id == order.order_id), it.unit_price.isSome = true) ∧
    order.total_price = linesTotal (db2.order_items.filter (fun it2 => it2.order_id == order.order_id)) +
      cd.shippingFee.getD 0 - order.voucher_discount ∧
    (∀ oid st n db3, update_shipping_status db2 oid st n = Except.ok db3 →
      db3.order_items = db2.order_items ∧
      ∀ o ∈ db3.orders, ∃ o0 ∈ db2.orders, o0.order_id = o.order_id ∧ o.total_price = o0.total_price ∧ o.voucher_discount = o0.voucher_discount) ∧
    (∀ oid em db3, cancel_order db2 oid em = Except.ok db3 →
      db3.order_items = db2.order_items ∧
      ∀ o ∈ db3.orders, ∃ o0 ∈ db2.orders, o0.order_id = o.order_id ∧ o.total_price = o0.total_price ∧ o.voucher_discount = o0.voucher_discount) ∧
    (∀ s3 oid db3 s4, confirm_payment db2 s3 oid = Except.ok (db3, s4) →
      db3.order_items = db2.order_items ∧
      ∀ o ∈ db3.orders, ∃ o0 ∈ db2.orders, o0.order_id = o.order_id ∧ o.total_price = o0.total_price ∧ o.voucher_discount = o0.voucher_discount) ∧
    (∀ oid, (fail_payment db2 oid).order_items = db2.order_items ∧
      ∀ o ∈ (fail_payment db2 oid).orders, ∃ o0 ∈ db2.orders, o0.order_id = o.order_id ∧ o.total_price = o0.total_price ∧ o.voucher_discount = o0.voucher_discount) := by
  obtain ⟨user, products2, rows, hu, hne, happ, hoid, hacct, hship, htot, hvouch, hprod, hord, hitems, hhist, haccts, hnext, husage, hpick, hsess⟩ :=
    create_order_shape db sess email cd now db2 sess2 order h
  have hpr : ∀ pq ∈ get_cart_items db sess (some user), ∃ p2,
      findProduct db.products pq.1.product_id = some p2 ∧
      effective_price p2 = effective_price pq.1 ∧ p2.product_id = pq.1.product_id := by
    intro pq hm
    exact ⟨pq.1, get_cart_items_snap db sess (some user) pq hm, rfl, rfl⟩
  have hrows := applyItems_rows db.next_order_id (get_cart_items db sess (some user)) db.products products2 rows hpr happ
  have hfilter : db2.order_items.filter (fun it2 => it2.order_id == order.order_id) = rows := by
    rw [hitems, hoid]
    refine filter_append_fresh db.order_items rows db.next_order_id hfresh ?_
    rw [hrows]
    exact rows_map_oid db.next_order_id (get_cart_items db sess (some user))
  refine ⟨?_, ?_, ?_, ?_, ?_, ?_⟩
  · intro it hit
    rw [hfilter, hrows] at hit
    rw [List.mem_map] at hit
    obtain ⟨pq, hm, hpq⟩ := hit
    rw [← hpq]
    rfl
  · rw [hfilter, hrows, linesTotal_map_rows]
    exact htot
  · intro oid st n db3 h3
    obtain ⟨hi3, hv3, order3, ho3, hor3⟩ := update_shipping_status_preserves db2 oid st n db3 h3
    refine ⟨hi3, ?_⟩
    rw [hor3]
    apply mem_map_orders
    intro o
    by_cases hc : o.order_id == oid <;> simp [hc]
  · intro oid em db3 h3
    obtain ⟨order3, acct3, products3, ho3, ha3, he3, hst3, hres3, hp3, hi3, hv3, hor3⟩ :=
      cancel_order_shape db2 oid em db3 h3
    refine ⟨hi3, ?_⟩
    rw [hor3]
    apply mem_map_orders
    intro o
    by_cases hc : o.order_id == oid <;> simp [hc]
  · intro s3 oid db3 s4 h3
    obtain ⟨hv3, hi3, order3, products3, ho3, hpend3, hconf3, hp3, hor3⟩ :=
      confirm_payment_shape db2 s3 oid db3 s4 h3
    refine ⟨hi3, ?_⟩
    rw [hor3]
    apply mem_map_orders
    intro o
    by_cases hc : o.order_id == oid <;> simp [hc]
  · intro oid
    obtain ⟨hi3, hv3, hor3⟩ := fail_payment_preserves db2 oid
    refine ⟨hi3, ?_⟩
    rcases hor3 with hor3 | hor3
    · rw [hor3]
      intro o ho
      exact ⟨o, ho, rfl, rfl, rfl⟩
    · rw [hor3]
      apply mem_map_orders
      intro o
      by_cases hc : o.order_id == oid <;> simp [hc]

/-- C1 witness: the concrete COD checkout, via the theorem. -/
theorem C1_total_invariant_witness :
    (∀ it ∈ db0.order_items, it.order_id ≠ db0.next_order_id) ∧
    codOrder0.total_price = linesTotal (codDB0.order_items.filter (fun it2 => it2.order_id == codOrder0.order_id)) +
      cd0.shippingFee.getD 0 - codOrder0.voucher_discount :=
  ⟨by simp [db0],
   (C1_total_invariant db0 sess0 "u@x.com" cd0 0 codDB0 codSess0 codOrder0 (by simp [db0]) rfl).2.1⟩

/-- C1 counterexample: create_pending_order stores order lines with NULL
unit_price, so the claimed equation over stored unit prices fails for the
gateway path: the stored total is 27 while the sum over lines (NULL read
as 0) plus shipping minus discount is 7. -/
theorem C1_counterexample :
    pendRes0 = Except.ok (pendDB0, pendOrder0) ∧
    pendDB0.order_items.filter (fun it => it.order_id == pendOrder0.order_id) = [⟨10, 1, 2, none⟩] ∧
    (⟨10, 1, 2, none⟩ : OrderItemRow).unit_price.isSome = false :=
  ⟨rfl, rfl, rfl⟩

/-- C2 (amended): on the COD path, create_order decrements each product
stock by the total quantity of that product on the order lines, and
create_order followed by cancel_order restores every product stock to its
exact pre-order value; on the gateway path, create_pending_order leaves
stock unchanged (the decrement is deferred to confirm_payment), so the
claimed decrement-at-placement and round trip do not hold there (see the
counterexample: cancelling an unconfirmed pending order inflates stock). -/
theorem C2_stock_roundtrip (db : DB) (sess : SessionData) (email : String) (cd : CheckoutDetails)
    (now : Int)
    (hfresh : ∀ it ∈ db.order_items, it.order_id ≠ db.next_order_id) :
    (∀ db2 sess2 order, create_order db sess email cd now = Except.ok (db2, sess2, order) →
      (∀ pid, stockOf db2.products pid = (stockOf db.products pid).map
        (fun s => s - rowsQty (db2.order_items.filter (fun it => it.order_id == order.order_id)) pid)) ∧
      (∀ em db3, cancel_order db2 order.order_id em = Except.ok db3 →
        ∀ pid, stockOf db3.products pid = stockOf db.products pid)) ∧
    (∀ db2 order2, create_pending_order db sess email cd = Except.ok (db2, order2) →
      db2.products = db.products) := by
  constructor
  · intro db2 sess2 order h
    obtain ⟨user, products2, rows, hu, hne, happ, hoid, hacct, hship, htot, hvouch, hprod, hord, hitems, hhist, haccts, hnext, husage, hpick, hsess⟩ :=
      create_order_shape db sess email cd now db2 sess2 order h
    have hpr : ∀ pq ∈ get_cart_items db sess (some user), ∃ p2,
        findProduct db.products pq.1.product_id = some p2 ∧
        effective_price p2 = effective_price pq.1 ∧ p2.product_id = pq.1.product_id := by
      intro pq hm
      exact ⟨pq.1, get_cart_items_snap db sess (some user) pq hm, rfl, rfl⟩
    have hrows := applyItems_rows db.next_order_id (get_cart_items db sess (some user)) db.products products2 rows hpr happ
    have hfilter : db2.order_items.filter (fun it => it.order_id == order.order_id) = rows := by
      rw [hitems, hoid]
      refine filter_append_fresh db.order_items rows db.next_order_id hfresh ?_
      rw [hrows]
      exact rows_map_oid db.next_order_id (get_cart_items db sess (some user))
    have hq : ∀ pid, rowsQty rows pid = qtySum (get_cart_items db sess (some user)) pid := by
      intro pid
      rw [hrows]
      exact rowsQty_map_rows db.next_order_id (get_cart_items db sess (some user)) pid
    have hstock : ∀ pid, stockOf db2.products pid = (stockOf db.products pid).map
        (fun s => s - qtySum (get_cart_items db sess (some user)) pid) := by
      intro pid
      rw [hprod]
      exact applyItems_stock db.next_order_id (get_cart_items db sess (some user)) db.products products2 rows happ pid
    constructor
    · intro pid
      rw [hfilter, hq pid]
      exact hstock pid
    · intro em db3 h3
      obtain ⟨order3, acct3, products3, ho3, ha3, he3, hst3, hres3, hp3, hi3, hv3, hor3⟩ :=
        cancel_order_shape db2 order.order_id em db3 h3
      rw [hfilter] at hres3
      intro pid
      have hrestock := restoreItems_stock rows db2.products products3 hres3 pid
      rw [hp3, hrestock, hstock pid, Option.map_map, hq pid]
      cases hs : stockOf db.products pid with
      | none => rfl
      | some sVal =>
        simp only [Option.map, Function.comp, Option.some.injEq]
        omega
  · intro db2 order2 h
    obtain ⟨user, hu, hne, ho2, ha2, had2, hpay2, hship2, hvouch2, htot2, hprod2, husage2, hord2, hitems2, haccts2, hcart2⟩ :=
      create_pending_order_shape db sess email cd db2 order2 h
    exact hprod2

/-- C2 witness: the concrete COD checkout and its cancellation, via the
theorem: stock 5 is decremented to 3 and restored to 5. -/
theorem C2_stock_roundtrip_witness :
    stockOf codDB0.products 1 = (stockOf db0.products 1).map
      (fun s => s - rowsQty (codDB0.order_items.filter (fun it => it.order_id == codOrder0.order_id)) 1) ∧
    stockOf codCancDB0.products 1 = stockOf db0.products 1 :=
  ⟨((C2_stock_roundtrip db0 sess0 "u@x.com" cd0 0 (by simp [db0])).1 codDB0 codSess0 codOrder0 rfl).1 1,
   ((C2_stock_roundtrip db0 sess0 "u@x.com" cd0 0 (by simp [db0])).1 codDB0 codSess0 codOrder0 rfl).2 "u@x.com" codCancDB0 rfl 1⟩

/-- C2 counterexample: on the gateway path, create_pending_order leaves
the stock at 5 although 2 units were ordered (the claim requires 3), and
cancelling that pending order then raises the stock to 7, not back to 5. -/
theorem C2_counterexample :
    stockOf db0.products 1 = some 5 ∧
    (create_pending_order db0 sess0 "u@x.com" cd0).map (fun r => stockOf r.1.products 1) = Except.ok (some 5) ∧
    rowsQty (pendDB0.order_items.filter (fun it => it.order_id == 10)) 1 = 2 ∧
    ((create_pending_order db0 sess0 "u@x.com" cd0).bind (fun r => cancel_order r.1 10 "u@x.com")).map
      (fun d => stockOf d.products 1) = Except.ok (some 7) ∧
    (5 : Int) ≠ 5 - 2 ∧ (7 : Int) ≠ 5 :=
  ⟨rfl, rfl, rfl, rfl, by decide, by decide⟩

/-- C3 (amended): at order-creation time create_order re-validates the
session voucher against the live voucher row: unknown, inactive,
outside-window, already-used and usage-limit-reached vouchers are dropped
(order proceeds with discount 0 and no voucher), and otherwise the
discount is recomputed from the live voucher and current subtotal,
ignoring the session-cached amount; the min_purchase_amount check is not
re-run (the pass branch has no minimum-purchase condition).
create_pending_order performs no re-validation at all and stores the
session-cached code and discount verbatim. -/
theorem C3_revalidation (db : DB) (sess : SessionData) (email : String) (cd : CheckoutDetails)
    (now : Int) (db2 : DB) (sess2 : SessionData) (order : OrderRow) (user : Account) (av : AppliedVoucher)
    (hu : findAccountByEmail db email = some user)
    (hav : sess.applied_voucher = some av)
    (h : create_order db sess email cd now = Except.ok (db2, sess2, order)) :
    (order.voucher_code, order.voucher_discount) =
      validateVoucherAtOrder db user.account_id (get_cart_total (get_cart_items db sess (some user))) now av ∧
    (∀ q : ℚ, validateVoucherAtOrder db user.account_id (get_cart_total (get_cart_items db sess (some user))) now ⟨av.voucher_code, q⟩ =
      validateVoucherAtOrder db user.account_id (get_cart_total (get_cart_items db sess (some user))) now av) ∧
    (findVoucher db av.voucher_code = none → (order.voucher_code, order.voucher_discount) = (none, 0)) ∧
    (∀ v, findVoucher db av.voucher_code = some v → v.is_active = false →
      (order.voucher_code, order.voucher_discount) = (none, 0)) ∧
    (∀ v, findVoucher db av.voucher_code = some v → ¬(v.valid_from ≤ now ∧ now ≤ v.valid_until) →
      (order.voucher_code, order.voucher_discount) = (none, 0)) ∧
    (∀ u2, findUsage db av.voucher_code user.account_id = some u2 →
      (order.voucher_code, order.voucher_discount) = (none, 0)) ∧
    (∀ v, findVoucher db av.voucher_code = some v →
      truthyI v.usage_limit = true ∧ v.usage_count ≥ v.usage_limit.getD 0 →
      (order.voucher_code, order.voucher_discount) = (none, 0)) ∧
    (∀ v, findVoucher db av.voucher_code = some v → v.is_active = true →
      v.valid_from ≤ now ∧ now ≤ v.valid_until →
      findUsage db av.voucher_code user.account_id = none →
      ¬(truthyI v.usage_limit = true ∧ v.usage_count ≥ v.usage_limit.getD 0) →
      (order.voucher_code, order.voucher_discount) =
        (some av.voucher_code, calcDiscount v.discount_type v.discount_value v.max_discount_amount
          (get_cart_total (get_cart_items db sess (some user))))) ∧
    (∀ db3 order3, create_pending_order db sess email cd = Except.ok (db3, order3) →
      (order3.voucher_code, order3.voucher_discount) = (some av.voucher_code, av.discount_amount)) := by
  obtain ⟨user2, products2, rows, hu2, hne, happ, hoid, hacct, hship, htot, hvouch, hprod, hord, hitems, hhist, haccts, hnext, husage, hpick, hsess⟩ :=
    create_order_shape db sess email cd now db2 sess2 order h
  have huser : user = user2 := by
    rw [hu] at hu2
    exact Option.some.inj hu2
  rw [← huser] at hvouch
  have heq : (order.voucher_code, order.voucher_discount) =
      validateVoucherAtOrder db user.account_id (get_cart_total (get_cart_items db sess (some user))) now av := by
    rcases hvouch with ⟨hnone, h1, h2⟩ | ⟨av2, hav2, heq2⟩
    · rw [hav] at hnone
      exact absurd hnone (by simp)
    · rw [hav] at hav2
      have hav3 : av = av2 := Option.some.inj hav2
      rw [← hav3] at heq2
      exact heq2
  refine ⟨heq, fun q => rfl, ?_, ?_, ?_, ?_, ?_, ?_, ?_⟩
  · intro hf
    rw [heq]
    exact validate_not_found db user.account_id _ now av hf
  · intro v hf h0
    rw [heq]
    exact validate_inactive db user.account_id _ now av v hf h0
  · intro v hf hw
    rw [heq]
    exact validate_outside_window db user.account_id _ now av v hf hw
  · intro u2 hus
    rw [heq]
    exact validate_used db user.account_id _ now av u2 hus
  · intro v hf hl
    rw [heq]
    exact validate_limit_reached db user.account_id _ now av v hf hl
  · intro v hf hact hwin hus hlim
    rw [heq]
    exact validate_pass db user.account_id _ now av v hf hact hwin hus hlim
  · intro db3 order3 h3
    obtain ⟨user3, hu3, hne3, ho3, ha3, had3, hpay3, hship3, hvouch3, htot3, hprod3, husage3, hord3, hitems3, haccts3, hcart3⟩ :=
      create_pending_order_shape db sess email cd db3 order3 h3
    rcases hvouch3 with ⟨hnone, h1, h2⟩ | ⟨av2, hav2, hc2, hd2⟩
    · rw [hav] at hnone
      exact absurd hnone (by simp)
    · rw [hav] at hav2
      have hav3 : av = av2 := Option.some.inj hav2
      rw [← hav3] at hc2 hd2
      rw [hc2, hd2]

/-- C3 witness: a session holding an inactive voucher with a forged cached
discount of 999 goes through create_order, via the theorem: the order
fields equal the live re-validation result. -/
theorem C3_revalidation_witness :
    findAccountByEmail dbI "u@x.com" = some acct1 ∧
    sessBad.applied_voucher = some ⟨"DEAD", 999⟩ ∧
    (c3Order.voucher_code, c3Order.voucher_discount) =
      validateVoucherAtOrder dbI acct1.account_id
        (get_cart_total (get_cart_items dbI sessBad (some acct1))) 0 ⟨"DEAD", 999⟩ :=
  ⟨rfl, rfl,
   (C3_revalidation dbI sessBad "u@x.com" cd0 0 c3DB c3Sess c3Order acct1 ⟨"DEAD", 999⟩ rfl rfl rfl).1⟩

/-- C3 counterexample: the same forged session goes through
create_pending_order and the inactive voucher with its cached discount of
999 is stored verbatim on the order, where the claim requires discount 0
and no voucher. -/
theorem C3_counterexample :
    (findVoucher dbI "DEAD").map (fun v => v.is_active) = some false ∧
    (create_pending_order dbI sessBad "u@x.com" cd0).map (fun r => (r.2.voucher_code, r.2.voucher_discount)) =
      Except.ok (some "DEAD", 999) ∧
    (999 : ℚ) ≠ 0 :=
  ⟨rfl, rfl, by norm_num⟩

/-- C4: at most one VoucherUsage row per (voucher_code, account) is
preserved by apply_voucher (which writes none), create_order (which
inserts one only after finding none for the pair), create_pending_order
and confirm_payment (which write none); a second apply attempt by the same
account is rejected, and a second redemption attempt through create_order
attaches no voucher and inserts no row. -/
theorem C4_usage_unique (db : DB) :
    (∀ sess email cd now db2 sess2 order, usageUnique db →
      create_order db sess email cd now = Except.ok (db2, sess2, order) → usageUnique db2) ∧
    (∀ sess email cd db2 order2, usageUnique db →
      create_pending_order db sess email cd = Except.ok (db2, order2) → usageUnique db2) ∧
    (∀ sess oid db2 sess2, usageUnique db →
      confirm_payment db sess oid = Except.ok (db2, sess2) → usageUnique db2) ∧
    (∀ sess raw uu now, (findUsage db (pyUpper (pyStrip raw)) uu.account_id).isSome = true →
      ∀ r, apply_voucher db sess raw (some uu) now ≠ Except.ok r) ∧
    (∀ sess email cd now db2 sess2 order user av,
      findAccountByEmail db email = some user → sess.applied_voucher = some av →
      (findUsage db av.voucher_code user.account_id).isSome = true →
      create_order db sess email cd now = Except.ok (db2, sess2, order) →
      order.voucher_code = none ∧ order.voucher_discount = 0 ∧ db2.voucher_usage = db.voucher_usage) := by
  refine ⟨?_, ?_, ?_, ?_, ?_⟩
  · intro sess email cd now db2 sess2 order huniq h
    obtain ⟨user, products2, rows, hu, hne, happ, hoid, hacct, hship, htot, hvouch, hprod, hord, hitems, hhist, haccts, hnext, husage, hpick, hsess⟩ :=
      create_order_shape db sess email cd now db2 sess2 order h
    rcases husage with hsame | ⟨c, hvc, hdpos, happend⟩
    · unfold usageUnique at huniq ⊢
      rw [hsame]
      exact huniq
    · rcases hvouch with ⟨hnone, hcnone, h2⟩ | ⟨av, hav, heq⟩
      · rw [hcnone] at hvc
        exact absurd hvc (by simp)
      · have hval : validateVoucherAtOrder db user.account_id (get_cart_total (get_cart_items db sess (some user))) now av =
            (some c, order.voucher_discount) := by
          rw [← heq, hvc]
        obtain ⟨hcav, husnone, v, hfv, hrest⟩ :=
          validate_some db user.account_id (get_cart_total (get_cart_items db sess (some user))) now av c order.voucher_discount hval
        subst hcav
        unfold usageUnique at huniq ⊢
        rw [happend]
        rw [List.pairwise_append]
        refine ⟨huniq, by simp, ?_⟩
        intro a ha b hb
        have hbrow : b = ⟨av.voucher_code, user.account_id, order.order_id, order.voucher_discount⟩ := by
          simpa using hb
        subst hbrow
        intro hcon
        have hnone2 := List.find?_eq_none.mp (show List.find? (fun u2 => u2.voucher_code == av.voucher_code && u2.account_id == user.account_id) db.voucher_usage = none by simpa [findUsage] using husnone) a ha
        apply hnone2
        simp [hcon.1, hcon.2]
  · intro sess email cd db2 order2 huniq h
    obtain ⟨user, hu, hne, ho2, ha2, had2, hpay2, hship2, hvouch2, htot2, hprod2, husage2, hord2, hitems2, haccts2, hcart2⟩ :=
      create_pending_order_shape db sess email cd db2 order2 h
    unfold usageUnique at huniq ⊢
    rw [husage2]
    exact huniq
  · intro sess oid db2 sess2 huniq h
    obtain ⟨hv2, hi2, order2, products2, ho2, hpend2, hconf2, hp2, hor2⟩ :=
      confirm_payment_shape db sess oid db2 sess2 h
    unfold usageUnique at huniq ⊢
    rw [hv2]
    exact huniq
  · intro sess raw uu now hused r hr
    obtain ⟨s2, resp⟩ := r
    obtain ⟨v, hv, hcode, hdisc, hnt, hsess, hact, h1, h2, h3, hus, hsub⟩ :=
      apply_voucher_shape db sess raw (some uu) now s2 resp hr
    have := hus uu rfl
    rw [this] at hused
    exact absurd hused (by simp)
  · intro sess email cd now db2 sess2 order user av hu hav hused h
    obtain ⟨user2, products2, rows, hu2, hne, happ, hoid, hacct, hship, htot, hvouch, hprod, hord, hitems, hhist, haccts, hnext, husage, hpick, hsess⟩ :=
      create_order_shape db sess email cd now db2 sess2 order h
    have huser : user = user2 := by
      rw [hu] at hu2
      exact Option.some.inj hu2
    rw [← huser] at hvouch
    have heq : (order.voucher_code, order.voucher_discount) =
        validateVoucherAtOrder db user.account_id (get_cart_total (get_cart_items db sess (some user))) now av := by
      rcases hvouch with ⟨hnone, h1, h2⟩ | ⟨av2, hav2, heq2⟩
      · rw [hav] at hnone
        exact absurd hnone (by simp)
      · rw [hav] at hav2
        have hav3 : av = av2 := Option.some.inj hav2
        rw [← hav3] at heq2
        exact heq2
    cases hus2 : findUsage db av.voucher_code user.account_id with
    | none => rw [hus2] at hused; exact absurd hused (by simp)
    | some u2 =>
      have hval := validate_used db user.account_id (get_cart_total (get_cart_items db sess (some user))) now av u2 hus2
      rw [hval] at heq
      have hc : order.voucher_code = none := by
        have := congrArg Prod.fst heq
        simpa using this
      have hd : order.voucher_discount = 0 := by
        have := congrArg Prod.snd heq
        simpa using this
      refine ⟨hc, hd, ?_⟩
      rcases husage with hsame | ⟨c, hvc, hdpos, happend⟩
      · exact hsame
      · rw [hc] at hvc
        exact absurd hvc (by simp)

/-- C4 witness: the invariant is preserved through the concrete COD
checkout, and a second application of an already-used voucher by the same
account is rejected, via the theorem. -/
theorem C4_usage_unique_witness :
    usageUnique db0 ∧ usageUnique codDB0 ∧
    (findUsage dbU (pyUpper (pyStrip "save10")) acct1.account_id).isSome = true ∧
    apply_voucher dbU sess0 "save10" (some acct1) 5 ≠
      Except.ok (sess0, ⟨"SAVE10", 80, 920⟩) :=
  ⟨by simp [usageUnique, db0],
   (C4_usage_unique db0).1 sess0 "u@x.com" cd0 0 codDB0 codSess0 codOrder0 (by simp [usageUnique, db0]) rfl,
   rfl,
   (C4_usage_unique dbU).2.2.2.1 sess0 "save10" acct1 5 rfl (sess0, ⟨"SAVE10", 80, 920⟩)⟩

end Dali
